import Mathlib

/-!
# anycable-go: the node command state machine

A shallow embedding of `node/node.go` (`Node.Subscribe`, `Node.Unsubscribe`,
`Node.Perform`, `Node.HandleCommand`, `Node.Authenticate`, `Node.HandlePubSub`,
`Node.Shutdown`, `handleCommandReply`, `handleCallReply`, `transmit`,
`Node.Broadcast`) and of the flag helpers of `cli/options.go`
(`NewConfigFromCLI` for the path flag, `nameToEnvVarName`, `withDefaults`).
Stateful Go code is rendered as explicit state passing over
a `World` that holds the hub, the session the command runs on, the metrics
counters and a trace of the effectful calls in the order they happen.

The packages `common`, `hub`, `ws` and the `Session` type are not part of the
sources at hand; their pieces are modelled from the specification and marked so.
-/

namespace AnyCable

/-! ## Data model -/

/-- Modelled from the spec: the reply status constants of package `common`
(`SUCCESS`, `FAILURE`, `ERROR`), which is not among the sources. -/
inductive Status where
  | SUCCESS
  | FAILURE
  | ERROR
  deriving DecidableEq, Repr

/-- Modelled from the spec: `common.StreamMessage`, the pub/sub variant
`StreamMessage { stream, data }` of §3. -/
structure StreamMessage where
  Stream : String
  Data : String
  deriving DecidableEq, Repr

/-- Modelled from the spec: `common.CommandResult`, the reply of §3.  Go slices
and maps can be nil, which the code tests for, so they are optional lists. -/
structure CommandResult where
  Status : Status
  Disconnect : Bool
  StopAllStreams : Bool
  StoppedStreams : Option (List String)
  Streams : Option (List String)
  Transmissions : Option (List String)
  Broadcasts : Option (List StreamMessage)
  CState : Option (List (String × String))
  IState : Option (List (String × String))
  deriving DecidableEq, Repr

/-- Modelled from the spec: `common.CallResult`, the part of a reply that is
not specific to a channel. -/
structure CallResult where
  Transmissions : Option (List String)
  Broadcasts : Option (List StreamMessage)
  CState : Option (List (String × String))
  deriving DecidableEq, Repr

/-- Modelled from the spec: `CommandResult.ToCallResult` of package `common`;
it keeps the transmissions, the broadcasts and the connection state patch. -/
def CommandResult.ToCallResult (c : CommandResult) : CallResult :=
  { Transmissions := c.Transmissions, Broadcasts := c.Broadcasts, CState := c.CState }

/-- Modelled from the spec: `common.RemoteDisconnectMessage`, the pub/sub
variant `RemoteDisconnectMessage { identifier, reconnect }` of §3. -/
structure RemoteDisconnectMessage where
  Identifier : String
  Reconnect : Bool
  deriving DecidableEq, Repr

/-- Modelled from the spec: what parsing a raw pub/sub payload gives when it is
recognized: one of the two variants of §3. -/
inductive PubSubMessage where
  | stream (msg : StreamMessage)
  | remoteDisconnect (msg : RemoteDisconnectMessage)
  deriving DecidableEq, Repr

/-- Modelled from the spec: `common.DisconnectMessage`, the server frame
`disconnect` of §6 with its reason and reconnect flag. -/
structure DisconnectMessage where
  MsgType : String
  Reason : String
  Reconnect : Bool
  deriving DecidableEq, Repr

/-- Modelled from the spec: the reason `server_restart` of §6
(`common.SERVER_RESTART_REASON`). -/
def SERVER_RESTART_REASON : String := "server_restart"

/-- Modelled from the spec: `common.NewDisconnectMessage`. -/
def NewDisconnectMessage (reason : String) (reconnect : Bool) : DisconnectMessage :=
  { MsgType := "disconnect", Reason := reason, Reconnect := reconnect }

/-- Modelled from the spec: `common.ConnectResult`, the reply of
Authenticate: the identifiers, the status and the connection-level effects. -/
structure ConnectResult where
  Identifier : String
  Status : Status
  Transmissions : Option (List String)
  Broadcasts : Option (List StreamMessage)
  CState : Option (List (String × String))
  deriving DecidableEq, Repr

/-- Modelled from the spec: `ConnectResult.ToCallResult` of package
`common`. -/
def ConnectResult.ToCallResult (c : ConnectResult) : CallResult :=
  { Transmissions := c.Transmissions, Broadcasts := c.Broadcasts, CState := c.CState }

/-- Modelled from the spec: the `data` field of a command message is of any
JSON type (`interface{}` in `common.Message`); only the string case is looked
into by the node, the other values are kept by their printed form. -/
inductive MsgData where
  | str (s : String)
  | other (printed : String)
  deriving DecidableEq, Repr

/-- Modelled from the spec: `common.Message`, the command message of §3. -/
structure Message where
  Command : String
  Identifier : String
  Data : MsgData
  deriving DecidableEq, Repr

/-! ## Subscription index -/

/-- Modelled from the spec: the per-session subscription index (the
`SubscriptionState` type is not among the sources), §3: a mapping from channel
identifier to a set of stream names, kept as an association list in which a
channel appears at most once and the streams of a channel are unique. -/
structure SubscriptionState where
  channels : List (String × List String)
  deriving DecidableEq, Repr

namespace SubscriptionState

/-- Modelled from the spec: whether the channel is in the index. -/
def HasChannel (st : SubscriptionState) (id : String) : Bool :=
  st.channels.any (fun p => p.1 == id)

/-- Modelled from the spec: the channel identifiers of the index. -/
def Channels (st : SubscriptionState) : List String :=
  st.channels.map Prod.fst

/-- Modelled from the spec: the stream set of a channel (empty when the
channel is not in the index). -/
def StreamsFor (st : SubscriptionState) (id : String) : List String :=
  match st.channels.find? (fun p => p.1 == id) with
  | some p => p.2
  | none => []

/-- Modelled from the spec: put the channel into the index with an empty
stream set. -/
def AddChannel (st : SubscriptionState) (id : String) : SubscriptionState :=
  { channels := st.channels.filter (fun p => !(p.1 == id)) ++ [(id, [])] }

/-- Modelled from the spec: remove the channel, with its streams, from the
index. -/
def RemoveChannel (st : SubscriptionState) (id : String) : SubscriptionState :=
  { channels := st.channels.filter (fun p => !(p.1 == id)) }

/-- Modelled from the spec: add a stream to the stream set of a channel of the
index; a channel that is not in the index has no stream set and nothing is
recorded for it. -/
def AddChannelStream (st : SubscriptionState) (id stream : String) : SubscriptionState :=
  { channels := st.channels.map (fun p =>
      if p.1 == id then (p.1, if stream ∈ p.2 then p.2 else p.2 ++ [stream]) else p) }

/-- Modelled from the spec: remove a stream from the stream set of a
channel. -/
def RemoveChannelStream (st : SubscriptionState) (id stream : String) : SubscriptionState :=
  { channels := st.channels.map (fun p =>
      if p.1 == id then (p.1, p.2.filter (fun s => !(s == stream))) else p) }

/-- Modelled from the spec: drop all the streams of a channel, which stays in
the index. -/
def RemoveChannelStreams (st : SubscriptionState) (id : String) : SubscriptionState :=
  { channels := st.channels.map (fun p => if p.1 == id then (p.1, []) else p) }

end SubscriptionState

/-! ## Session -/

/-- Modelled from the spec: `common.SessionEnv`, the request environment with
the per-connection state map and the per-channel state maps (§3). -/
structure SessionEnv where
  URL : String
  Headers : List (String × String)
  ConnectionState : List (String × String)
  ChannelStates : List (String × List (String × String))
  deriving DecidableEq, Repr

/-- Set a key of a string map, kept as an association list. -/
def mapSet (m : List (String × String)) (k v : String) : List (String × String) :=
  if m.any (fun p => p.1 == k) then m.map (fun p => if p.1 == k then (k, v) else p)
  else m ++ [(k, v)]

/-- Apply a partial patch to a string map. -/
def mapMerge (m patch : List (String × String)) : List (String × String) :=
  patch.foldl (fun acc p => mapSet acc p.1 p.2) m

namespace SessionEnv

/-- Modelled from the spec: `cstate` is a partial patch to the connection
state map. -/
def MergeConnectionState (env : SessionEnv) (other : List (String × String)) : SessionEnv :=
  { env with ConnectionState := mapMerge env.ConnectionState other }

/-- Modelled from the spec: `istate` is a partial patch to the state map of
one channel. -/
def MergeChannelState (env : SessionEnv) (id : String) (other : List (String × String)) :
    SessionEnv :=
  if env.ChannelStates.any (fun p => p.1 == id) then
    { env with ChannelStates :=
        env.ChannelStates.map (fun p => if p.1 == id then (p.1, mapMerge p.2 other) else p) }
  else
    { env with ChannelStates := env.ChannelStates ++ [(id, mapMerge [] other)] }

end SessionEnv

/-- Modelled from the spec: the `Session` of §3 (its type is not among the
sources): the immutable sid, the identifiers, the environment, the subscription
index, the outbound queue as the list of the transmissions handed to it, the
Connected flag and the closes it was scheduled for, each with reason and close
code. -/
structure Session where
  uid : String
  identifiers : String
  env : SessionEnv
  subscriptions : SubscriptionState
  outbound : List String
  Connected : Bool
  disconnects : List (String × Nat)
  deriving DecidableEq, Repr

/-! ## Hub -/

/-- Modelled from the spec: the hub state of §3 (package `hub` is not among
the sources).  `streams` holds the `(sid, stream, channel)` triples of the
stream index, `sessions` the registered sids, `broadcasts` the stream messages
handed to the hub for fan-out. -/
structure Hub where
  sessions : List String
  streams : List (String × String × String)
  broadcasts : List StreamMessage
  /-- The index `byIdentifier` as pairs of an identifiers string and a sid. -/
  byIdentifier : List (String × String) := []
  /-- The remote disconnect commands handed to the hub. -/
  remoteDisconnects : List RemoteDisconnectMessage := []
  /-- Whether the hub was shut down. -/
  stopped : Bool := false
  deriving DecidableEq, Repr

namespace Hub

/-- Modelled from the spec: `SubscribeSession(sid, stream, channel)`; a
duplicate subscribe is a no-op. -/
def SubscribeSession (h : Hub) (sid stream channel : String) : Hub :=
  if (sid, stream, channel) ∈ h.streams then h
  else { h with streams := h.streams ++ [(sid, stream, channel)] }

/-- Modelled from the spec: `UnsubscribeSession(sid, stream, channel)`; an
unknown unsubscribe is a no-op. -/
def UnsubscribeSession (h : Hub) (sid stream channel : String) : Hub :=
  { h with streams := h.streams.filter (fun t => !(t == (sid, stream, channel))) }

/-- Modelled from the spec: `UnsubscribeSessionFromChannel(sid, channel)`
removes all streams this session holds under the channel. -/
def UnsubscribeSessionFromChannel (h : Hub) (sid channel : String) : Hub :=
  { h with streams := h.streams.filter (fun t => !(t.1 == sid && t.2.2 == channel)) }

/-- Modelled from the spec: `BroadcastMessage` hands the stream message to the
hub, whose fan-out runs on its own workers. -/
def BroadcastMessage (h : Hub) (msg : StreamMessage) : Hub :=
  { h with broadcasts := h.broadcasts ++ [msg] }

/-- Modelled from the spec: `AddSession(s)` inserts the session into `byUID`
and, unless its identifiers are empty, into `byIdentifier`. -/
def AddSession (h : Hub) (sid identifiers : String) : Hub :=
  { h with
    sessions := if sid ∈ h.sessions then h.sessions else h.sessions ++ [sid],
    byIdentifier :=
      if identifiers = "" ∨ (identifiers, sid) ∈ h.byIdentifier then h.byIdentifier
      else h.byIdentifier ++ [(identifiers, sid)] }

/-- Modelled from the spec: `RemoteDisconnect(msg)` hands the command to the
hub, which disconnects the sessions of the identifier on its own task. -/
def RemoteDisconnect (h : Hub) (msg : RemoteDisconnectMessage) : Hub :=
  { h with remoteDisconnects := h.remoteDisconnects ++ [msg] }

/-- Modelled from the spec: `Shutdown` stops the hub from accepting
operations. -/
def Shutdown (h : Hub) : Hub :=
  { h with stopped := true }

/-- Modelled from the spec: `Size = |byUID|`. -/
def Size (h : Hub) : Nat :=
  h.sessions.length

/-- Modelled from the spec: `DisconnectSesssions(msg, reason)` disconnects all
the sessions; the hub is cleared (scenario 5 of §8). -/
def DisconnectSesssions (h : Hub) (_msg : DisconnectMessage) (_reason : String) : Hub :=
  { h with sessions := [], streams := [], byIdentifier := [] }

end Hub

/-! ## Node -/

/-- Modelled from the spec: the close codes of package `ws` (§6): 1000 normal
closure, 1006 abnormal closure, 1011 internal server error. -/
def CloseNormalClosure : Nat := 1000

/-- Modelled from the spec: the abnormal-closure close code of package `ws`. -/
def CloseAbnormalClosure : Nat := 1006

/-- Modelled from the spec: the internal-server-error close code of package
`ws`. -/
def CloseInternalServerErr : Nat := 1011

def metricsFailedAuths : String := "failed_auths_total"
def metricsBroadcastMsg : String := "broadcast_msg_total"
def metricsUnknownBroadcast : String := "failed_broadcast_msg_total"

/-- Modelled from the spec: what `Controller.Authenticate` gives back: a
reply, which can be nil, and an error, which can be nil. -/
abbrev AuthReply := Option ConnectResult × Option String

/-- Levels of the log lines the node writes. -/
inductive LogLevel where
  | debug
  | info
  | warn
  | error
  deriving DecidableEq, Repr

/-- The effectful calls of the node, recorded in the order they are made.  A
log line is recorded by its level and its format string. -/
inductive Event where
  | controllerSubscribe (sid ids channel : String)
  | controllerUnsubscribe (sid ids channel : String)
  | controllerPerform (sid ids channel data : String)
  | hubUnsubscribeSessionFromChannel (sid channel : String)
  | hubUnsubscribeSession (sid stream channel : String)
  | hubSubscribeSession (sid stream channel : String)
  | mergeChannelState (channel : String) (patch : List (String × String))
  | mergeConnectionState (patch : List (String × String))
  | counterIncrement (name : String)
  | hubBroadcastMessage (msg : StreamMessage)
  | sendJSONTransmission (msg : String)
  | sessionDisconnect (reason : String) (code : Nat)
  | log (level : LogLevel) (format : String)
  | controllerAuthenticate (sid : String)
  | hubAddSession (sid identifiers : String)
  | hubRemoteDisconnect (msg : RemoteDisconnectMessage)
  | closeShutdownCh
  | hubShutdown
  | hubDisconnectSesssions (msg : DisconnectMessage) (reason : String)
  | disconnectorShutdown
  | controllerShutdown
  deriving DecidableEq, Repr

/-- Modelled from the spec: the counters of the metrics surface (§6), by
name (package `metrics` is not among the sources). -/
structure Metrics where
  counters : List (String × Nat)
  deriving DecidableEq, Repr

namespace Metrics

/-- The value of a counter; a counter never incremented is at 0. -/
def Counter (m : Metrics) (name : String) : Nat :=
  match m.counters.find? (fun p => p.1 == name) with
  | some p => p.2
  | none => 0

/-- Modelled from the spec: `CounterIncrement(name)` adds one to the
counter. -/
def CounterIncrement (m : Metrics) (name : String) : Metrics :=
  if m.counters.any (fun p => p.1 == name) then
    { counters := m.counters.map (fun p => if p.1 == name then (p.1, p.2 + 1) else p) }
  else
    { counters := m.counters ++ [(name, 1)] }

end Metrics

/-- The state a node operation runs on: the hub, the session of the command,
the metrics and the trace of the effectful calls made so far. -/
structure World where
  hub : Hub
  session : Session
  metrics : Metrics
  trace : List Event
  deriving DecidableEq, Repr

/-- Modelled from the spec: what a call of the `Controller` interface (§2,
declared outside the sources) gives back: a reply, which can be nil, and an
error, which can be nil. -/
abbrev ControllerReply := Option CommandResult × Option String

/-- Modelled from the spec: the `Controller` interface (§2), the RPC to the
application; a call is a function of its arguments `sid`, `env`, `identifiers`,
`channel` (and `data`). -/
structure Controller where
  Subscribe : String → SessionEnv → String → String → ControllerReply
  Unsubscribe : String → SessionEnv → String → String → ControllerReply
  Perform : String → SessionEnv → String → String → String → ControllerReply
  /-- The call `Authenticate(sid, env)`. -/
  Authenticate : String → SessionEnv → AuthReply
  /-- The error `Shutdown()` returns, nil when there is none. -/
  Shutdown : Option String

/-- What a command of the node returns: the state after it, the result and
the error (both can be nil). -/
abbrev Outcome := World × Option CommandResult × Option String

namespace World

/-- Append an event to the trace. -/
def record (w : World) (e : Event) : World :=
  { w with trace := w.trace ++ [e] }

/-- A line of the session or node log. -/
def Log (w : World) (level : LogLevel) (format : String) : World :=
  w.record (.log level format)

/-- Modelled from the spec: `Session.SendJSONTransmission` enqueues the
transmission on the outbound queue of the session. -/
def SendJSONTransmission (w : World) (msg : String) : World :=
  { w with session := { w.session with outbound := w.session.outbound ++ [msg] },
           trace := w.trace ++ [.sendJSONTransmission msg] }

/-- Modelled from the spec: `Session.Disconnect(reason, code)` schedules the
session for close with the reason and the close code. -/
def Disconnect (w : World) (reason : String) (code : Nat) : World :=
  { w with session := { w.session with disconnects := w.session.disconnects ++ [(reason, code)] },
           trace := w.trace ++ [.sessionDisconnect reason code] }

/-- The two calls of the body of the `StopAllStreams` branch of
`handleCommandReply`. -/
def stopAllStreams (w : World) (uid channel : String) : World :=
  { w with hub := w.hub.UnsubscribeSessionFromChannel uid channel,
           session := { w.session with
             subscriptions := w.session.subscriptions.RemoveChannelStreams channel },
           trace := w.trace ++ [.hubUnsubscribeSessionFromChannel uid channel] }

/-- The body of the loop over `reply.StoppedStreams` in
`handleCommandReply`. -/
def stopStream (uid channel : String) (w : World) (stream : String) : World :=
  { w with hub := w.hub.UnsubscribeSession uid stream channel,
           session := { w.session with
             subscriptions := w.session.subscriptions.RemoveChannelStream channel stream },
           trace := w.trace ++ [.hubUnsubscribeSession uid stream channel] }

/-- The body of the loop over `reply.Streams` in `handleCommandReply`. -/
def addStream (uid channel : String) (w : World) (stream : String) : World :=
  { w with hub := w.hub.SubscribeSession uid stream channel,
           session := { w.session with
             subscriptions := w.session.subscriptions.AddChannelStream channel stream },
           trace := w.trace ++ [.hubSubscribeSession uid stream channel] }

/-- The call `s.env.MergeChannelState(msg.Identifier, &reply.IState)`. -/
def mergeChannelState (w : World) (channel : String) (patch : List (String × String)) : World :=
  { w with session := { w.session with env := w.session.env.MergeChannelState channel patch },
           trace := w.trace ++ [.mergeChannelState channel patch] }

/-- The call `s.env.MergeConnectionState(&reply.CState)`. -/
def mergeConnectionState (w : World) (patch : List (String × String)) : World :=
  { w with session := { w.session with env := w.session.env.MergeConnectionState patch },
           trace := w.trace ++ [.mergeConnectionState patch] }

end World

/-- `Node.Broadcast`: count the message, log it and hand it to the hub. -/
def Broadcast (w : World) (msg : StreamMessage) : World :=
  { w with metrics := w.metrics.CounterIncrement metricsBroadcastMsg,
           hub := w.hub.BroadcastMessage msg,
           trace := w.trace ++ [.counterIncrement metricsBroadcastMsg,
                                .log .debug "Incoming pubsub message: %v",
                                .hubBroadcastMessage msg] }

/-- `transmit`: send each transmission to the session, in list order. -/
def transmit (w : World) (transmissions : List String) : World :=
  transmissions.foldl World.SendJSONTransmission w

/-- `Node.handleCallReply`: merge the connection state, then broadcast, then
transmit; the result tells whether the connection state was touched. -/
def handleCallReply (w : World) (reply : CallResult) : World × Bool :=
  let r1 : World × Bool :=
    match reply.CState with
    | some cstate => (w.mergeConnectionState cstate, true)
    | none => (w, false)
  let w2 : World :=
    match reply.Broadcasts with
    | some broadcasts => broadcasts.foldl Broadcast r1.1
    | none => r1.1
  let w3 : World :=
    match reply.Transmissions with
    | some transmissions => transmit w2 transmissions
    | none => w2
  (w3, r1.2)

/-- `Node.handleCommandReply`.  The deferred `s.Disconnect` runs when the
function returns, that is after `handleCallReply`. -/
def handleCommandReply (w : World) (msg : Message) (reply : CommandResult) : World × Bool :=
  let uid := w.session.uid
  let r1 : World × Bool :=
    if reply.StopAllStreams then (w.stopAllStreams uid msg.Identifier, false)
    else
      match reply.StoppedStreams with
      | some stopped => (stopped.foldl (World.stopStream uid msg.Identifier) w, true)
      | none => (w, false)
  let r2 : World × Bool :=
    match reply.Streams with
    | some streams => (streams.foldl (World.addStream uid msg.Identifier) r1.1, true)
    | none => r1
  let r3 : World × Bool :=
    match reply.IState with
    | some istate => (r2.1.mergeChannelState msg.Identifier istate, true)
    | none => r2
  let r4 : World × Bool := handleCallReply r3.1 reply.ToCallResult
  let w5 : World :=
    if reply.Disconnect then r4.1.Disconnect "Command Failed" CloseAbnormalClosure else r4.1
  (w5, r3.2 || r4.2)

/-- The log line of the three commands on an error of the controller: written
when the reply is nil or has status ERROR. -/
def logControllerError (w : World) (res : Option CommandResult) (format : String) : World :=
  match res with
  | none => w.Log .error format
  | some r => if r.Status = Status.ERROR then w.Log .error format else w

/-- The tail shared by the three commands: apply the reply when there is
one. -/
def applyReply (w : World) (msg : Message) (res : Option CommandResult)
    (err : Option String) : Outcome :=
  match res with
  | some r => ((handleCommandReply w msg r).1, some r, err)
  | none => (w, none, err)

/-- `Node.Subscribe`. -/
def Subscribe (ctl : Controller) (w : World) (msg : Message) : Outcome :=
  if w.session.subscriptions.HasChannel msg.Identifier then
    (w, none, some ("Already subscribed to " ++ msg.Identifier))
  else
    let r := ctl.Subscribe w.session.uid w.session.env w.session.identifiers msg.Identifier
    let w0 := w.record
      (.controllerSubscribe w.session.uid w.session.identifiers msg.Identifier)
    let w1 : World :=
      match r.2 with
      | some _ => logControllerError w0 r.1 "Subscribe error: %v"
      | none =>
        ({ w0 with session := { w0.session with
             subscriptions := w0.session.subscriptions.AddChannel msg.Identifier } }).Log
          .debug "Subscribed to channel: %s"
    applyReply w1 msg r.1 r.2

/-- `Node.Unsubscribe`.  The result is `none` where the Go code dereferences a
nil reply (the controller gave neither a reply nor an error). -/
def Unsubscribe (ctl : Controller) (w : World) (msg : Message) : Option Outcome :=
  if !(w.session.subscriptions.HasChannel msg.Identifier) then
    some (w, none, some ("Unknown subscription " ++ msg.Identifier))
  else
    let r := ctl.Unsubscribe w.session.uid w.session.env w.session.identifiers msg.Identifier
    let w0 := w.record
      (.controllerUnsubscribe w.session.uid w.session.identifiers msg.Identifier)
    match r.2 with
    | some _ =>
      some (applyReply (logControllerError w0 r.1 "Unsubscribe error: %v") msg r.1 r.2)
    | none =>
      match r.1 with
      | none => none
      | some res =>
        let res1 : CommandResult := { res with StopAllStreams := true }
        let w1 : World :=
          ({ w0 with session := { w0.session with
               subscriptions := w0.session.subscriptions.RemoveChannel msg.Identifier } }).Log
            .debug "Unsubscribed from channel: %s"
        some (applyReply w1 msg (some res1) none)

/-- `Node.Perform`. -/
def Perform (ctl : Controller) (w : World) (msg : Message) : Outcome :=
  if !(w.session.subscriptions.HasChannel msg.Identifier) then
    (w, none, some ("Unknown subscription " ++ msg.Identifier))
  else
    match msg.Data with
    | .other printed => (w, none, some ("Perform data must be a string, got " ++ printed))
    | .str data =>
      let r := ctl.Perform w.session.uid w.session.env w.session.identifiers msg.Identifier data
      let w0 := w.record
        (.controllerPerform w.session.uid w.session.identifiers msg.Identifier data)
      let w1 : World :=
        match r.2 with
        | some _ => logControllerError w0 r.1 "Perform error: %v"
        | none => w0.Log .debug "Perform result: %v"
      applyReply w1 msg r.1 r.2

/-- `Node.HandleCommand`: log the message and run the command it names.  The
result is the state after it and the error; it is `none` where
`Node.Unsubscribe` has no result. -/
def HandleCommand (ctl : Controller) (w : World) (msg : Message) :
    Option (World × Option String) :=
  let w0 := w.Log .debug "Incoming message: %v"
  if msg.Command = "subscribe" then
    some ((Subscribe ctl w0 msg).1, (Subscribe ctl w0 msg).2.2)
  else if msg.Command = "unsubscribe" then
    (Unsubscribe ctl w0 msg).map (fun out => (out.1, out.2.2))
  else if msg.Command = "message" then
    some ((Perform ctl w0 msg).1, (Perform ctl w0 msg).2.2)
  else
    some (w0, some ("Unknown command: " ++ msg.Command))

/-- `Node.RemoteDisconnect`: count the command, log it and hand it to the
hub. -/
def RemoteDisconnect (w : World) (msg : RemoteDisconnectMessage) : World :=
  { w with metrics := w.metrics.CounterIncrement metricsBroadcastMsg,
           hub := w.hub.RemoteDisconnect msg,
           trace := w.trace ++ [.counterIncrement metricsBroadcastMsg,
                                .log .debug "Incoming pubsub command: %v",
                                .hubRemoteDisconnect msg] }

/-- `Node.HandlePubSub`.  The parser `common.PubSubMessageFromJSON` is not
among the sources and is a parameter: it gives an error or one of the two
variants of §3. -/
def HandlePubSub (parse : String → Except String PubSubMessage) (w : World) (raw : String) :
    World :=
  match parse raw with
  | .error _ =>
    { w with metrics := w.metrics.CounterIncrement metricsUnknownBroadcast,
             trace := w.trace ++ [.counterIncrement metricsUnknownBroadcast,
                                  .log .warn "Failed to parse pubsub message '%s' with error: %v"] }
  | .ok (.stream v) => Broadcast w v
  | .ok (.remoteDisconnect v) => RemoteDisconnect w v

/-- What `Node.Authenticate` returns: the state after it, the result and the
error (both can be nil). -/
abbrev AuthOutcome := World × Option ConnectResult × Option String

/-- `Node.Authenticate`.  The result is `none` where the Go code dereferences a
nil reply (the controller gave neither a reply nor an error).  The deferred
`s.Disconnect` of the branch without success runs when the function returns,
that is after `handleCallReply`. -/
def Authenticate (ctl : Controller) (w : World) : Option AuthOutcome :=
  let r := ctl.Authenticate w.session.uid w.session.env
  let w0 := w.record (.controllerAuthenticate w.session.uid)
  match r.2 with
  | some e => some (w0.Disconnect "Auth Error" CloseInternalServerErr, r.1, some e)
  | none =>
    match r.1 with
    | none => none
    | some res =>
      if res.Status = Status.SUCCESS then
        let w1 : World :=
          { w0 with
            session := { w0.session with identifiers := res.Identifier, Connected := true },
            hub := w0.hub.AddSession w0.session.uid res.Identifier,
            trace := w0.trace ++ [.hubAddSession w0.session.uid res.Identifier] }
        some ((handleCallReply w1 res.ToCallResult).1, some res, none)
      else
        let w1 : World :=
          if res.Status = Status.FAILURE then
            { w0 with metrics := w0.metrics.CounterIncrement metricsFailedAuths,
                      trace := w0.trace ++ [.counterIncrement metricsFailedAuths] }
          else w0
        some (((handleCallReply w1 res.ToCallResult).1).Disconnect "Auth Failed"
          CloseNormalClosure, some res, none)

/-- Modelled from the spec: the `Disconnector` interface (the disconnect
queue of §4.5, declared outside the sources), by the error its `Shutdown`
returns, nil when there is none. -/
structure Disconnector where
  Shutdown : Option String
  deriving DecidableEq, Repr

/-- The node as `Node.Shutdown` sees it: the state of the operations, whether
the hub is set, the disconnector and the controller (nil when not set), and the
`closed` flag, which is set together with the close of the shutdown channel. -/
structure NodeState where
  world : World
  hubSet : Bool
  disconnector : Option Disconnector
  controller : Option Controller
  closed : Bool

/-- The hub part of `Node.Shutdown`: shut the hub down and, when sessions are
registered, disconnect them all.  The one-second sleep at its end is not
part of the state. -/
def shutdownHub (w : World) : World :=
  let w1 : World := { w with hub := w.hub.Shutdown, trace := w.trace ++ [.hubShutdown] }
  if 0 < w1.hub.Size then
    let disconnectMessage := NewDisconnectMessage SERVER_RESTART_REASON true
    let w2 := w1.Log .info "Closing active connections: %d"
    let w3 : World :=
      { w2 with hub := w2.hub.DisconnectSesssions disconnectMessage SERVER_RESTART_REASON,
                trace := w2.trace ++
                  [.hubDisconnectSesssions disconnectMessage SERVER_RESTART_REASON] }
    w3.Log .info "All active connections closed"
  else w1

/-- A shutdown step of `Node.Shutdown` for a service that is set: record the
call and log the error it returns, if any. -/
def shutdownStep (w : World) (call : Event) (err : Option String) : World :=
  match err with
  | some _ => (w.record call).Log .warn "%v"
  | none => w.record call

/-- `Node.Shutdown`.  The errors of the disconnector and of the controller are
bound to variables of their own blocks, so the error returned after the first
call is nil. -/
def Shutdown (n : NodeState) : NodeState × Option String :=
  if n.closed then (n, some "Already shut down")
  else
    let w0 := n.world.record .closeShutdownCh
    let w1 := if n.hubSet then shutdownHub w0 else w0
    let w2 :=
      match n.disconnector with
      | some d => shutdownStep w1 .disconnectorShutdown d.Shutdown
      | none => w1
    let w3 :=
      match n.controller with
      | some c => shutdownStep w2 .controllerShutdown c.Shutdown
      | none => w2
    ({ n with world := w3, closed := true }, none)

/-! ## Command line -/

/-- The pieces of a list of characters between the occurrences of a
separator. -/
def splitChars (sep : Char) : List Char → List (List Char)
  | [] => [[]]
  | c :: cs =>
    if c = sep then [] :: splitChars sep cs
    else
      match splitChars sep cs with
      | [] => [[c]]
      | piece :: pieces => (c :: piece) :: pieces

/-- The call `strings.Split(s, sep)` of the Go library for a separator of one
character. -/
def stringsSplit (s : String) (sep : Char) : List String :=
  (splitChars sep s.toList).map String.mk

/-- The call `strings.Join(elems, sep)` of the Go library. -/
def stringsJoin (elems : List String) (sep : String) : String :=
  sep.intercalate elems

/-- The field `Path` of `config.Config`, the one field the path flag
decides. -/
structure Config where
  Path : List String
  deriving DecidableEq, Repr

/-- `config.NewConfig`, for the field `Path`. -/
def NewConfig : Config :=
  { Path := ["/cable"] }

/-- `NewConfigFromCLI`, for the path flag: the flag library stores in `path`
the value given on the command line or else the default value of the flag,
`strings.Join(c.Path, ",")`; a non-empty `path` is then split at the
spaces. -/
def NewConfigFromCLI (pathFlag : Option String) : Config :=
  let c := NewConfig
  let path : String := pathFlag.getD (stringsJoin c.Path ",")
  if path ≠ "" then { c with Path := stringsSplit path ' ' } else c

/-- The constant `envPrefix`. -/
def envPrefix : String := "ANYCABLE_"

/-- The pieces of a list of characters between the characters a predicate
holds of. -/
def splitCharsWhere (p : Char → Bool) : List Char → List (List Char)
  | [] => [[]]
  | c :: cs =>
    if p c then [] :: splitCharsWhere p cs
    else
      match splitCharsWhere p cs with
      | [] => [[c]]
      | piece :: pieces => (c :: piece) :: pieces

/-- The characters the pattern `[_-]` of `splitFlagName` matches. -/
def isFlagNameSeparator (c : Char) : Bool :=
  c == '_' || c == '-'

/-- The call `splitFlagName.Split(name, -1)` of the Go library: the pattern
matches one character at a time, so the name is cut at every `_` and `-`, and
the pieces before, between and after them are all returned. -/
def splitFlagName (name : String) : List String :=
  (splitCharsWhere isFlagNameSeparator name.toList).map String.mk

/-- The call `strings.ToUpper(s)` of the Go library on a string of ASCII
characters: the letters `a` to `z` are upper-cased. -/
def stringsToUpper (s : String) : String :=
  String.mk (s.toList.map Char.toUpper)

/-- `nameToEnvVarName`: split the name, upper-case each piece, join the pieces
with `_` after the prefix. -/
def nameToEnvVarName (name : String) : String :=
  let split := splitFlagName name
  let set := split.foldl (fun acc piece => acc ++ [stringsToUpper piece]) []
  envPrefix ++ stringsJoin set "_"

/-- The built-in `len(s)` of Go on a string: its number of bytes. -/
def goLen (s : String) : Nat :=
  s.utf8ByteSize

/-- The characters of the flag names: ASCII letters, digits, `-` and `_`. -/
def isFlagNameChar (c : Char) : Bool :=
  (65 ≤ c.toNat && c.toNat ≤ 90) || (97 ≤ c.toNat && c.toNat ≤ 122) ||
    (48 ≤ c.toNat && c.toNat ≤ 57) || c == '-' || c == '_'

/-- The environment variable name in the words of the specification: the
prefix, then the name with every letter upper-cased and every `-` replaced by
`_`. -/
def envVarNameSpec (name : String) : String :=
  "ANYCABLE_" ++ String.mk (name.toList.map (fun c => if c = '-' then '_' else c.toUpper))

/-- Pieces of characters joined with a separator. -/
def joinChars (sep : List Char) : List (List Char) → List Char
  | [] => []
  | piece :: pieces => piece ++ pieces.flatMap (fun a => sep ++ a)

/-- The types of flags of the command line library: the eight types
`withDefaults` has a case for, and the other implementations of `cli.Flag`. -/
inductive FlagKind where
  | IntFlag
  | Int64Flag
  | Float64Flag
  | DurationFlag
  | BoolFlag
  | StringFlag
  | PathFlag
  | TimestampFlag
  | otherFlag
  deriving DecidableEq, Repr

/-- A flag (`cli.Flag`): its type and the fields the defaults are about; the
usage text stands for the fields that are left alone. -/
structure Flag where
  kind : FlagKind
  Name : String
  Usage : String
  Category : String
  EnvVars : List String
  deriving DecidableEq, Repr

/-- The body of each case of the switch of `withDefaults`: set the category,
and the environment variable when the flag has none. -/
def setDefaults (category : String) (v : Flag) : Flag :=
  let v1 : Flag := { v with Category := category }
  if v1.EnvVars.length = 0 then { v1 with EnvVars := [nameToEnvVarName v1.Name] } else v1

/-- `withDefaults`: the flags, each changed in place by the case of its type;
a flag of a type without a case is left as it is. -/
def withDefaults (category : String) (flags : List Flag) : List Flag :=
  flags.map (fun f =>
    match f.kind with
    | .IntFlag => setDefaults category f
    | .Int64Flag => setDefaults category f
    | .Float64Flag => setDefaults category f
    | .DurationFlag => setDefaults category f
    | .BoolFlag => setDefaults category f
    | .StringFlag => setDefaults category f
    | .PathFlag => setDefaults category f
    | .TimestampFlag => setDefaults category f
    | .otherFlag => f)

/-- The constant `serverCategoryDescription`. -/
def serverCategoryDescription : String := "ANYCABLE-GO SERVER:"

/-- The flag `port` of `serverCLIFlags`. -/
def exPortFlag : Flag :=
  { kind := .IntFlag, Name := "port", Usage := "Server port", Category := "",
    EnvVars := [envPrefix ++ "PORT", "PORT"] }

/-- The flag `max-conn` of `serverCLIFlags`. -/
def exMaxConnFlag : Flag :=
  { kind := .IntFlag, Name := "max-conn",
    Usage := "Limit simultaneous server connections (0 – without limit)", Category := "",
    EnvVars := [] }

/-- A flag of a type `withDefaults` has no case for (a string slice flag). -/
def exSliceFlag : Flag :=
  { kind := .otherFlag, Name := "tags", Usage := "Tags", Category := "", EnvVars := [] }

/-! ## The calls a reply gives rise to -/

/-- The hub calls of the stop part of a reply: one call for `stop_all_streams`,
else one call for each of the `stopped_streams`. -/
def stopEvents (uid channel : String) (reply : CommandResult) : List Event :=
  if reply.StopAllStreams then [.hubUnsubscribeSessionFromChannel uid channel]
  else (reply.StoppedStreams.getD []).map (fun s => .hubUnsubscribeSession uid s channel)

/-- The hub calls for the `streams` additions of a reply. -/
def streamEvents (uid channel : String) (reply : CommandResult) : List Event :=
  (reply.Streams.getD []).map (fun s => .hubSubscribeSession uid s channel)

/-- The merge of the `istate` of a reply. -/
def istateEvents (channel : String) (reply : CommandResult) : List Event :=
  match reply.IState with
  | some patch => [.mergeChannelState channel patch]
  | none => []

/-- The merge of the `cstate` of a reply. -/
def cstateEvents (reply : CommandResult) : List Event :=
  match reply.CState with
  | some patch => [.mergeConnectionState patch]
  | none => []

/-- The calls `Node.Broadcast` makes for one stream message. -/
def broadcastCalls (msg : StreamMessage) : List Event :=
  [.counterIncrement metricsBroadcastMsg, .log .debug "Incoming pubsub message: %v",
   .hubBroadcastMessage msg]

/-- The calls for the `broadcasts` of a reply. -/
def broadcastEvents (reply : CommandResult) : List Event :=
  (reply.Broadcasts.getD []).flatMap broadcastCalls

/-- The sends for the `transmissions` of a reply. -/
def transmitEvents (reply : CommandResult) : List Event :=
  (reply.Transmissions.getD []).map Event.sendJSONTransmission

/-- The close a reply with `disconnect` schedules. -/
def disconnectEvents (reply : CommandResult) : List Event :=
  if reply.Disconnect then [.sessionDisconnect "Command Failed" CloseAbnormalClosure] else []

/-- The stream index of the hub after the stop part of a reply. -/
def hubStreamsAfterStop (uid channel : String) (reply : CommandResult)
    (streams : List (String × String × String)) : List (String × String × String) :=
  if reply.StopAllStreams then
    streams.filter (fun t => !(t.1 == uid && t.2.2 == channel))
  else
    (reply.StoppedStreams.getD []).foldl
      (fun acc s => acc.filter (fun t => !(t == (uid, s, channel)))) streams

/-- The stream index of the hub after the `streams` additions. -/
def hubStreamsAfterAdd (uid channel : String) (added : List String)
    (streams : List (String × String × String)) : List (String × String × String) :=
  added.foldl (fun acc s => if (uid, s, channel) ∈ acc then acc else acc ++ [(uid, s, channel)])
    streams

/-- The subscription index after the stop part of a reply. -/
def subscriptionsAfterStop (channel : String) (reply : CommandResult)
    (st : SubscriptionState) : SubscriptionState :=
  if reply.StopAllStreams then st.RemoveChannelStreams channel
  else (reply.StoppedStreams.getD []).foldl (fun acc s => acc.RemoveChannelStream channel s) st

/-- The subscription index after the `streams` additions. -/
def subscriptionsAfterAdd (channel : String) (added : List String)
    (st : SubscriptionState) : SubscriptionState :=
  added.foldl (fun acc s => acc.AddChannelStream channel s) st

/-- The environment of the session after the state patches of a reply: the
`istate` first, the `cstate` after it. -/
def envAfterReply (channel : String) (reply : CommandResult) (env : SessionEnv) : SessionEnv :=
  let e1 : SessionEnv :=
    match reply.IState with
    | some patch => env.MergeChannelState channel patch
    | none => env
  match reply.CState with
  | some patch => e1.MergeConnectionState patch
  | none => e1

/-- All the calls of `handleCommandReply` for a reply, in the order of the
code: stop part, `streams` additions, `istate`, `cstate`, broadcasts,
transmissions, close. -/
def replyEvents (uid channel : String) (reply : CommandResult) : List Event :=
  stopEvents uid channel reply ++ streamEvents uid channel reply ++ istateEvents channel reply ++
    cstateEvents reply ++ broadcastEvents reply ++ transmitEvents reply ++ disconnectEvents reply

/-! ## Example states -/

/-- A request environment without state. -/
def exEnv : SessionEnv :=
  { URL := "/cable", Headers := [], ConnectionState := [], ChannelStates := [] }

/-- An authenticated session `s1` without subscriptions. -/
def exSession : Session :=
  { uid := "s1", identifiers := "user/42", env := exEnv, subscriptions := { channels := [] },
    outbound := [], Connected := true, disconnects := [] }

/-- The session `s1` subscribed to the channel `chat`, without streams. -/
def exSessionChat : Session :=
  { exSession with subscriptions := { channels := [("chat", [])] } }

/-- A node with an empty hub and the session `s1`, not subscribed. -/
def exWorld : World :=
  { hub := { sessions := ["s1"], streams := [], broadcasts := [] }, session := exSession,
    metrics := { counters := [] }, trace := [] }

/-- A node with the session `s1` subscribed to `chat`. -/
def exWorldChat : World :=
  { exWorld with session := exSessionChat }

/-- A controller that answers every call with the same reply and error. -/
def constController (r : ControllerReply) : Controller :=
  { Subscribe := fun _ _ _ _ => r, Unsubscribe := fun _ _ _ _ => r,
    Perform := fun _ _ _ _ _ => r, Authenticate := fun _ _ => (none, some "rpc unavailable"),
    Shutdown := none }

/-- A reply with the given status and nothing else. -/
def emptyReply (status : Status) : CommandResult :=
  { Status := status, Disconnect := false, StopAllStreams := false, StoppedStreams := none,
    Streams := none, Transmissions := none, Broadcasts := none, CState := none, IState := none }

/-- The reply of scenario 1 of the specification: one stream, one
transmission. -/
def exReplyRoom : CommandResult :=
  { emptyReply .SUCCESS with Streams := some ["room_1"], Transmissions := some ["confirm"] }

/-- The subscribe command for the channel `chat`. -/
def exSubscribeChat : Message :=
  { Command := "subscribe", Identifier := "chat", Data := .other "<nil>" }

/-- The unsubscribe command for the channel `chat`. -/
def exUnsubscribeChat : Message :=
  { Command := "unsubscribe", Identifier := "chat", Data := .other "<nil>" }

/-- A message command for the channel `chat` with string data. -/
def exPerformChat : Message :=
  { Command := "message", Identifier := "chat", Data := .str "speak" }

/-- The effect on the index and the hub of a reply that came with an error:
the channel identifiers of the index are kept, the transmissions of the reply
follow the outbound queue, and when the reply carries no stream change
(`stop_all_streams` false, no `stopped_streams`, no `streams`) the whole index
and the stream index of the hub are kept. -/
def KeepsChannels (w : World) (reply : CommandResult) (w' : World) : Prop :=
  w'.session.subscriptions.Channels = w.session.subscriptions.Channels ∧
  w'.session.outbound = w.session.outbound ++ reply.Transmissions.getD [] ∧
  (reply.StopAllStreams = false → reply.StoppedStreams.getD [] = [] →
    reply.Streams.getD [] = [] →
      w'.session.subscriptions = w.session.subscriptions ∧ w'.hub.streams = w.hub.streams)

/-- A reply with status ERROR that adds the stream `room_1`. -/
def exReplyErrorStream : CommandResult :=
  { emptyReply .ERROR with Streams := some ["room_1"], Transmissions := some ["oops"] }

/-- A reply with status ERROR that carries a transmission only. -/
def exReplyError : CommandResult :=
  { emptyReply .ERROR with Transmissions := some ["oops"] }

/-- An unsubscribe reply that lists the stream `room_2`. -/
def exReplyUnsubscribeStream : CommandResult :=
  { emptyReply .SUCCESS with Streams := some ["room_2"] }

/-- The session `s1` subscribed to `chat` with the stream `room_1`, and the hub
holding the matching entry. -/
def exWorldRoom : World :=
  { exWorld with
    hub := { sessions := ["s1"], streams := [("s1", "room_1", "chat")], broadcasts := [] },
    session := { exSession with subscriptions := { channels := [("chat", ["room_1"])] } } }

/-- A controller with one answer for subscribe and another for the other
calls. -/
def pairController (sub other : ControllerReply) : Controller :=
  { Subscribe := fun _ _ _ _ => sub, Unsubscribe := fun _ _ _ _ => other,
    Perform := fun _ _ _ _ _ => other, Authenticate := fun _ _ => (none, some "rpc unavailable"),
    Shutdown := none }

/-- A reply with one broadcast and one transmission. -/
def exReplyBroadcast : CommandResult :=
  { emptyReply .SUCCESS with
    Transmissions := some ["t"], Broadcasts := some [{ Stream := "room_1", Data := "hi" }] }

/-- The calls of `handleCommandReply` for a reply before the close: stop
part, `streams` additions, `istate`, `cstate`, broadcasts, transmissions. -/
def effectEvents (uid channel : String) (reply : CommandResult) : List Event :=
  stopEvents uid channel reply ++ streamEvents uid channel reply ++ istateEvents channel reply ++
    cstateEvents reply ++ broadcastEvents reply ++ transmitEvents reply

/-- Whether an event is a close of the session. -/
def Event.isDisconnect : Event → Bool
  | .sessionDisconnect _ _ => true
  | _ => false

/-- The calls of `handleCallReply` for the reply of Authenticate: `cstate`,
broadcasts, transmissions. -/
def connectEvents (res : ConnectResult) : List Event :=
  (match res.CState with
   | some patch => [Event.mergeConnectionState patch]
   | none => []) ++
  (res.Broadcasts.getD []).flatMap broadcastCalls ++
  (res.Transmissions.getD []).map Event.sendJSONTransmission

/-- A session `s1` right after the handshake: no identifiers, not
connected. -/
def exSessionNew : Session :=
  { exSession with identifiers := "", Connected := false }

/-- A node with an empty hub and the session `s1` not yet authenticated. -/
def exWorldNew : World :=
  { hub := { sessions := [], streams := [], broadcasts := [] }, session := exSessionNew,
    metrics := { counters := [] }, trace := [] }

/-- A controller that answers Authenticate with the given reply and error. -/
def authController (r : AuthReply) : Controller :=
  { Subscribe := fun _ _ _ _ => (none, some "rpc unavailable"),
    Unsubscribe := fun _ _ _ _ => (none, some "rpc unavailable"),
    Perform := fun _ _ _ _ _ => (none, some "rpc unavailable"),
    Authenticate := fun _ _ => r, Shutdown := none }

/-- A successful reply of Authenticate with a welcome transmission. -/
def exConnectSuccess : ConnectResult :=
  { Identifier := "user/42", Status := .SUCCESS, Transmissions := some ["welcome"],
    Broadcasts := none, CState := none }

/-- The reply of scenario 2 of the specification, with one broadcast added:
status FAILURE and a disconnect transmission. -/
def exConnectFailure : ConnectResult :=
  { Identifier := "", Status := .FAILURE, Transmissions := some ["unauthorized"],
    Broadcasts := some [{ Stream := "audit", Data := "rejected" }], CState := none }

/-- A parser of pub/sub payloads for the examples: two payloads are
recognized. -/
def exParse (raw : String) : Except String PubSubMessage :=
  if raw = "stream" then .ok (.stream { Stream := "room_1", Data := "hi" })
  else if raw = "disconnect" then
    .ok (.remoteDisconnect { Identifier := "user/42", Reconnect := true })
  else .error "Unknown message"

/-- A controller whose Shutdown returns the given error. -/
def shutdownController (err : Option String) : Controller :=
  { Subscribe := fun _ _ _ _ => (none, some "rpc unavailable"),
    Unsubscribe := fun _ _ _ _ => (none, some "rpc unavailable"),
    Perform := fun _ _ _ _ _ => (none, some "rpc unavailable"),
    Authenticate := fun _ _ => (none, some "rpc unavailable"), Shutdown := err }

/-- A running node with one registered session, a disconnector and a
controller whose shutdowns both fail. -/
def exNode : NodeState :=
  { world := exWorldChat, hubSet := true, disconnector := some { Shutdown := some "timeout" },
    controller := some (shutdownController (some "rpc down")), closed := false }

/-- The log line for the error of a shutdown step, if any. -/
def warnEvents (err : Option String) : List Event :=
  match err with
  | some _ => [.log .warn "%v"]
  | none => []

/-- The calls of the hub part of `Node.Shutdown` for a hub. -/
def hubShutdownEvents (h : Hub) : List Event :=
  Event.hubShutdown ::
    (if 0 < h.Size then
      [.log .info "Closing active connections: %d",
       .hubDisconnectSesssions (NewDisconnectMessage SERVER_RESTART_REASON true)
         SERVER_RESTART_REASON,
       .log .info "All active connections closed"]
    else [])

/-- A command the node does not know. -/
def exUnknownCommand : Message :=
  { Command := "history", Identifier := "chat", Data := .other "<nil>" }

/-- A reply that stops all the streams of the channel and nothing else. -/
def exReplyStopAll : CommandResult :=
  { emptyReply .SUCCESS with StopAllStreams := true }

/-! ## Lemmas on the subscription index -/

namespace SubscriptionState

theorem hasChannel_iff_mem (st : SubscriptionState) (id : String) :
    st.HasChannel id = true ↔ id ∈ st.Channels := by
  simp [HasChannel, Channels]

theorem channels_addChannelStream (st : SubscriptionState) (id stream : String) :
    (st.AddChannelStream id stream).Channels = st.Channels := by
  simp only [AddChannelStream, Channels, List.map_map]
  apply List.map_congr_left
  intro p _
  simp only [Function.comp_apply]
  split <;> rfl

theorem channels_removeChannelStream (st : SubscriptionState) (id stream : String) :
    (st.RemoveChannelStream id stream).Channels = st.Channels := by
  simp only [RemoveChannelStream, Channels, List.map_map]
  apply List.map_congr_left
  intro p _
  simp only [Function.comp_apply]
  split <;> rfl

theorem channels_removeChannelStreams (st : SubscriptionState) (id : String) :
    (st.RemoveChannelStreams id).Channels = st.Channels := by
  simp only [RemoveChannelStreams, Channels, List.map_map]
  apply List.map_congr_left
  intro p _
  simp only [Function.comp_apply]
  split <;> rfl

theorem channels_foldl_addChannelStream (id : String) (streams : List String)
    (st : SubscriptionState) :
    (streams.foldl (fun acc s => acc.AddChannelStream id s) st).Channels = st.Channels := by
  induction streams generalizing st with
  | nil => rfl
  | cons s rest ih => simp [List.foldl_cons, ih, channels_addChannelStream]

theorem channels_foldl_removeChannelStream (id : String) (streams : List String)
    (st : SubscriptionState) :
    (streams.foldl (fun acc s => acc.RemoveChannelStream id s) st).Channels = st.Channels := by
  induction streams generalizing st with
  | nil => rfl
  | cons s rest ih => simp [List.foldl_cons, ih, channels_removeChannelStream]

theorem hasChannel_eq_of_channels_eq {st st' : SubscriptionState} (h : st'.Channels = st.Channels)
    (id : String) : st'.HasChannel id = st.HasChannel id := by
  rw [Bool.eq_iff_iff, hasChannel_iff_mem, hasChannel_iff_mem, h]

theorem hasChannel_addChannel (st : SubscriptionState) (id : String) :
    (st.AddChannel id).HasChannel id = true := by
  simp [HasChannel, AddChannel]

theorem hasChannel_removeChannel (st : SubscriptionState) (id : String) :
    (st.RemoveChannel id).HasChannel id = false := by
  simp [HasChannel, RemoveChannel]

/-- An index without the channel is not changed by removing the channel. -/
theorem removeChannel_of_not_hasChannel (st : SubscriptionState) (id : String)
    (h : st.HasChannel id = false) : st.RemoveChannel id = st := by
  cases st with
  | mk chans =>
    simp only [RemoveChannel, SubscriptionState.mk.injEq, List.filter_eq_self]
    intro p hp
    simp only [HasChannel, List.any_eq_false] at h
    simpa using h p hp

/-- Stream changes for a channel that is not in the index change nothing. -/
theorem addChannelStream_of_not_hasChannel (st : SubscriptionState) (id stream : String)
    (h : st.HasChannel id = false) : st.AddChannelStream id stream = st := by
  cases st with
  | mk chans =>
    simp only [HasChannel, List.any_eq_false] at h
    simp only [AddChannelStream, SubscriptionState.mk.injEq]
    conv_rhs => rw [← List.map_id chans]
    apply List.map_congr_left
    intro p hp
    simp [h p hp]

theorem removeChannelStream_of_not_hasChannel (st : SubscriptionState) (id stream : String)
    (h : st.HasChannel id = false) : st.RemoveChannelStream id stream = st := by
  cases st with
  | mk chans =>
    simp only [HasChannel, List.any_eq_false] at h
    simp only [RemoveChannelStream, SubscriptionState.mk.injEq]
    conv_rhs => rw [← List.map_id chans]
    apply List.map_congr_left
    intro p hp
    simp [h p hp]

theorem removeChannelStreams_of_not_hasChannel (st : SubscriptionState) (id : String)
    (h : st.HasChannel id = false) : st.RemoveChannelStreams id = st := by
  cases st with
  | mk chans =>
    simp only [HasChannel, List.any_eq_false] at h
    simp only [RemoveChannelStreams, SubscriptionState.mk.injEq]
    conv_rhs => rw [← List.map_id chans]
    apply List.map_congr_left
    intro p hp
    simp [h p hp]

theorem foldl_addChannelStream_of_not_hasChannel (id : String) (streams : List String)
    (st : SubscriptionState) (h : st.HasChannel id = false) :
    streams.foldl (fun acc s => acc.AddChannelStream id s) st = st := by
  induction streams with
  | nil => rfl
  | cons s rest ih => simp [List.foldl_cons, addChannelStream_of_not_hasChannel _ _ _ h, ih]

theorem foldl_removeChannelStream_of_not_hasChannel (id : String) (streams : List String)
    (st : SubscriptionState) (h : st.HasChannel id = false) :
    streams.foldl (fun acc s => acc.RemoveChannelStream id s) st = st := by
  induction streams with
  | nil => rfl
  | cons s rest ih => simp [List.foldl_cons, removeChannelStream_of_not_hasChannel _ _ _ h, ih]

end SubscriptionState

/-! ## The loops of the reply handler in closed form -/

theorem transmit_eq (transmissions : List String) (w : World) :
    transmit w transmissions =
      { w with session := { w.session with outbound := w.session.outbound ++ transmissions },
               trace := w.trace ++ transmissions.map Event.sendJSONTransmission } := by
  induction transmissions generalizing w with
  | nil => simp [transmit]
  | cons t rest ih =>
    simp only [transmit, List.foldl_cons] at ih ⊢
    rw [ih]
    simp [World.SendJSONTransmission]

theorem foldl_Broadcast_eq (broadcasts : List StreamMessage) (w : World) :
    broadcasts.foldl Broadcast w =
      { w with metrics := broadcasts.foldl
                 (fun m _ => m.CounterIncrement metricsBroadcastMsg) w.metrics,
               hub := { w.hub with broadcasts := w.hub.broadcasts ++ broadcasts },
               trace := w.trace ++ broadcasts.flatMap broadcastCalls } := by
  induction broadcasts generalizing w with
  | nil => simp
  | cons b rest ih =>
    simp only [List.foldl_cons]
    rw [ih]
    simp [Broadcast, Hub.BroadcastMessage, broadcastCalls]

theorem foldl_stopStream_eq (uid channel : String) (stopped : List String) (w : World) :
    stopped.foldl (World.stopStream uid channel) w =
      { w with hub := { w.hub with
                 streams := stopped.foldl
                   (fun acc s => acc.filter (fun t => !(t == (uid, s, channel)))) w.hub.streams },
               session := { w.session with
                 subscriptions := stopped.foldl
                   (fun acc s => acc.RemoveChannelStream channel s) w.session.subscriptions },
               trace := w.trace ++
                 stopped.map (fun s => Event.hubUnsubscribeSession uid s channel) } := by
  induction stopped generalizing w with
  | nil => simp
  | cons s rest ih =>
    simp only [List.foldl_cons]
    rw [ih]
    simp [World.stopStream, Hub.UnsubscribeSession]

theorem foldl_addStream_eq (uid channel : String) (added : List String) (w : World) :
    added.foldl (World.addStream uid channel) w =
      { w with hub := { w.hub with streams := hubStreamsAfterAdd uid channel added w.hub.streams },
               session := { w.session with
                 subscriptions := subscriptionsAfterAdd channel added w.session.subscriptions },
               trace := w.trace ++
                 added.map (fun s => Event.hubSubscribeSession uid s channel) } := by
  induction added generalizing w with
  | nil => simp [hubStreamsAfterAdd, subscriptionsAfterAdd]
  | cons s rest ih =>
    simp only [List.foldl_cons]
    rw [ih]
    by_cases h : (uid, s, channel) ∈ w.hub.streams <;>
      simp [World.addStream, Hub.SubscribeSession, hubStreamsAfterAdd, subscriptionsAfterAdd, h]

/-- The state after `handleCallReply`, field by field. -/
theorem handleCallReply_fst (w : World) (reply : CallResult) :
    (handleCallReply w reply).1 =
      { hub := { w.hub with broadcasts := w.hub.broadcasts ++ reply.Broadcasts.getD [] },
        session := { w.session with
          env := (match reply.CState with
                  | some patch => w.session.env.MergeConnectionState patch
                  | none => w.session.env),
          outbound := w.session.outbound ++ reply.Transmissions.getD [] },
        metrics := (reply.Broadcasts.getD []).foldl
          (fun m _ => m.CounterIncrement metricsBroadcastMsg) w.metrics,
        trace := w.trace ++
          (match reply.CState with
           | some patch => [Event.mergeConnectionState patch]
           | none => []) ++
          (reply.Broadcasts.getD []).flatMap broadcastCalls ++
          (reply.Transmissions.getD []).map Event.sendJSONTransmission } := by
  rcases reply with ⟨trans, bcasts, cstate⟩
  cases trans <;> cases bcasts <;> cases cstate <;>
    simp [handleCallReply, transmit_eq, foldl_Broadcast_eq, World.mergeConnectionState]

/-- The state after `handleCommandReply`, field by field. -/
theorem handleCommandReply_fst (w : World) (msg : Message) (reply : CommandResult) :
    (handleCommandReply w msg reply).1 =
      { hub := { w.hub with
                 streams := hubStreamsAfterAdd w.session.uid msg.Identifier
                   (reply.Streams.getD [])
                   (hubStreamsAfterStop w.session.uid msg.Identifier reply w.hub.streams),
                 broadcasts := w.hub.broadcasts ++ reply.Broadcasts.getD [] },
        session := { w.session with
          env := envAfterReply msg.Identifier reply w.session.env,
          subscriptions := subscriptionsAfterAdd msg.Identifier (reply.Streams.getD [])
            (subscriptionsAfterStop msg.Identifier reply w.session.subscriptions),
          outbound := w.session.outbound ++ reply.Transmissions.getD [],
          disconnects := w.session.disconnects ++
            (if reply.Disconnect then [("Command Failed", CloseAbnormalClosure)] else []) },
        metrics := (reply.Broadcasts.getD []).foldl
          (fun m _ => m.CounterIncrement metricsBroadcastMsg) w.metrics,
        trace := w.trace ++ replyEvents w.session.uid msg.Identifier reply } := by
  rcases reply with ⟨status, disc, stopAll, stopped, streams, trans, bcasts, cstate, istate⟩
  cases disc <;> cases stopAll <;> cases stopped <;> cases streams <;> cases istate <;>
    cases cstate <;>
    simp [handleCommandReply, handleCallReply_fst, CommandResult.ToCallResult,
      foldl_stopStream_eq, foldl_addStream_eq, World.stopAllStreams, World.mergeChannelState,
      World.Disconnect, Hub.UnsubscribeSessionFromChannel, hubStreamsAfterStop,
      hubStreamsAfterAdd, subscriptionsAfterStop, subscriptionsAfterAdd, envAfterReply,
      replyEvents, stopEvents, streamEvents, istateEvents, cstateEvents, broadcastEvents,
      transmitEvents, disconnectEvents]

/-! ## Membership after the stream additions -/

theorem mem_hubStreamsAfterAdd (uid channel : String) (added : List String)
    (streams : List (String × String × String)) (t : String × String × String) :
    t ∈ hubStreamsAfterAdd uid channel added streams ↔
      t ∈ streams ∨ ∃ s ∈ added, t = (uid, s, channel) := by
  induction added generalizing streams with
  | nil => simp [hubStreamsAfterAdd]
  | cons s rest ih =>
    simp only [hubStreamsAfterAdd, List.foldl_cons] at ih ⊢
    rw [ih]
    by_cases h : (uid, s, channel) ∈ streams
    · simp only [h, if_true, List.mem_cons, exists_eq_or_imp]
      constructor
      · rintro (h1 | h1)
        · exact Or.inl h1
        · exact Or.inr (Or.inr h1)
      · rintro (h1 | h1 | h1)
        · exact Or.inl h1
        · exact Or.inl (h1 ▸ h)
        · exact Or.inr h1
    · simp only [h, if_false, List.mem_append, List.mem_singleton, List.mem_cons,
        exists_eq_or_imp]
      tauto

theorem mem_streamsFor_addChannelStream (st : SubscriptionState) (channel s x : String)
    (h : st.HasChannel channel = true) :
    x ∈ (st.AddChannelStream channel s).StreamsFor channel ↔
      x ∈ st.StreamsFor channel ∨ x = s := by
  cases st with
  | mk chans =>
    induction chans with
    | nil => simp [SubscriptionState.HasChannel] at h
    | cons p rest ih =>
      by_cases hp : p.1 = channel
      · by_cases hs : s ∈ p.2
        · simp only [SubscriptionState.StreamsFor, SubscriptionState.AddChannelStream,
            List.map_cons, hp, beq_self_eq_true, if_true, hs, List.find?_cons]
          constructor
          · exact Or.inl
          · rintro (h1 | h1)
            · exact h1
            · exact h1 ▸ hs
        · simp [SubscriptionState.StreamsFor, SubscriptionState.AddChannelStream, hp, hs,
            List.find?_cons]
      · have hrest : (SubscriptionState.mk rest).HasChannel channel = true := by
          simpa [SubscriptionState.HasChannel, hp] using h
        have hb : (p.1 == channel) = false := by simpa using hp
        have := ih hrest
        simp only [SubscriptionState.StreamsFor, SubscriptionState.AddChannelStream] at this
        simpa only [SubscriptionState.StreamsFor, SubscriptionState.AddChannelStream,
          List.map_cons, List.find?_cons, hp, hb, if_false, beq_iff_eq] using this

theorem hasChannel_subscriptionsAfterAdd (channel : String) (added : List String)
    (st : SubscriptionState) (id : String) :
    (subscriptionsAfterAdd channel added st).HasChannel id = st.HasChannel id :=
  SubscriptionState.hasChannel_eq_of_channels_eq
    (SubscriptionState.channels_foldl_addChannelStream channel added st) id

theorem channels_subscriptionsAfterStop (channel : String) (reply : CommandResult)
    (st : SubscriptionState) :
    (subscriptionsAfterStop channel reply st).Channels = st.Channels := by
  unfold subscriptionsAfterStop
  split
  · exact SubscriptionState.channels_removeChannelStreams st channel
  · exact SubscriptionState.channels_foldl_removeChannelStream channel _ st

theorem hasChannel_subscriptionsAfterStop (channel : String) (reply : CommandResult)
    (st : SubscriptionState) (id : String) :
    (subscriptionsAfterStop channel reply st).HasChannel id = st.HasChannel id :=
  SubscriptionState.hasChannel_eq_of_channels_eq
    (channels_subscriptionsAfterStop channel reply st) id

theorem mem_streamsFor_subscriptionsAfterAdd (channel : String) (added : List String)
    (st : SubscriptionState) (x : String) (h : st.HasChannel channel = true) :
    x ∈ (subscriptionsAfterAdd channel added st).StreamsFor channel ↔
      x ∈ st.StreamsFor channel ∨ x ∈ added := by
  induction added generalizing st with
  | nil => simp [subscriptionsAfterAdd]
  | cons s rest ih =>
    simp only [subscriptionsAfterAdd, List.foldl_cons] at ih ⊢
    have h1 : (st.AddChannelStream channel s).HasChannel channel = true := by
      rw [SubscriptionState.hasChannel_eq_of_channels_eq
        (SubscriptionState.channels_addChannelStream st channel s)]
      exact h
    rw [ih _ h1, mem_streamsFor_addChannelStream st channel s x h, List.mem_cons]
    tauto

/-! ## The channels of the index under a reply -/

theorem channels_after_reply (channel : String) (reply : CommandResult)
    (st : SubscriptionState) :
    (subscriptionsAfterAdd channel (reply.Streams.getD [])
      (subscriptionsAfterStop channel reply st)).Channels = st.Channels := by
  unfold subscriptionsAfterAdd
  rw [SubscriptionState.channels_foldl_addChannelStream, channels_subscriptionsAfterStop]

/-- A reply without stream changes leaves the index as it is. -/
theorem subscriptions_after_reply_of_no_streams (channel : String) (reply : CommandResult)
    (st : SubscriptionState) (hall : reply.StopAllStreams = false)
    (hstopped : reply.StoppedStreams.getD [] = []) (hstreams : reply.Streams.getD [] = []) :
    subscriptionsAfterAdd channel (reply.Streams.getD [])
      (subscriptionsAfterStop channel reply st) = st := by
  simp [subscriptionsAfterAdd, subscriptionsAfterStop, hall, hstopped, hstreams]

/-- A reply without stream changes leaves the stream index of the hub as it
is. -/
theorem hubStreams_after_reply_of_no_streams (uid channel : String) (reply : CommandResult)
    (streams : List (String × String × String)) (hall : reply.StopAllStreams = false)
    (hstopped : reply.StoppedStreams.getD [] = []) (hstreams : reply.Streams.getD [] = []) :
    hubStreamsAfterAdd uid channel (reply.Streams.getD [])
      (hubStreamsAfterStop uid channel reply streams) = streams := by
  simp [hubStreamsAfterAdd, hubStreamsAfterStop, hall, hstopped, hstreams]

/-! ## Subscribe -/

/-- C1: for a session whose subscription index already contains the channel of
the message, `Node.Subscribe` returns a nil result and the error
"Already subscribed to c", and the state after it is the state before it: the
trace has no call of the controller, and the subscription index, the hub and
the outbound transmissions of the session are unchanged, whatever the
controller is. -/
theorem subscribe_already_subscribed (ctl : Controller) (w : World) (msg : Message)
    (h : w.session.subscriptions.HasChannel msg.Identifier = true) :
    Subscribe ctl w msg = (w, none, some ("Already subscribed to " ++ msg.Identifier)) := by
  simp [Subscribe, h]

theorem subscribe_already_subscribed_witness :
    exWorldChat.session.subscriptions.HasChannel exSubscribeChat.Identifier = true ∧
      Subscribe (constController (some exReplyRoom, none)) exWorldChat exSubscribeChat =
        (exWorldChat, none, some ("Already subscribed to " ++ exSubscribeChat.Identifier)) :=
  ⟨by decide, subscribe_already_subscribed _ _ _ (by decide)⟩

/-- C2: for a session whose index does not contain the channel `c` of the
message, when `Controller.Subscribe` returns a reply with status SUCCESS and no
error, after `Node.Subscribe` the index contains `c`, every stream of
`reply.Streams` is in the hub as `(sid, stream, c)` and in the stream set of
`c` in the index, and the outbound queue of the session is the one before
followed by `reply.Transmissions` in list order; the reply is returned without
error. -/
theorem subscribe_applies_success_reply (ctl : Controller) (w : World) (msg : Message)
    (reply : CommandResult)
    (hnot : w.session.subscriptions.HasChannel msg.Identifier = false)
    (hctl : ctl.Subscribe w.session.uid w.session.env w.session.identifiers msg.Identifier =
      (some reply, none))
    (_hstatus : reply.Status = Status.SUCCESS) :
    (Subscribe ctl w msg).2 = (some reply, none) ∧
    (Subscribe ctl w msg).1.session.subscriptions.HasChannel msg.Identifier = true ∧
    (∀ stream ∈ reply.Streams.getD [],
      (w.session.uid, stream, msg.Identifier) ∈ (Subscribe ctl w msg).1.hub.streams ∧
      stream ∈ (Subscribe ctl w msg).1.session.subscriptions.StreamsFor msg.Identifier) ∧
    (Subscribe ctl w msg).1.session.outbound =
      w.session.outbound ++ reply.Transmissions.getD [] := by
  have hadd : (subscriptionsAfterStop msg.Identifier reply
      (w.session.subscriptions.AddChannel msg.Identifier)).HasChannel msg.Identifier = true := by
    rw [hasChannel_subscriptionsAfterStop]
    exact SubscriptionState.hasChannel_addChannel _ _
  simp only [Subscribe, hnot, hctl, applyReply, handleCommandReply_fst, World.Log, World.record]
  refine ⟨by simp, ?_, ?_, by simp⟩
  · simpa [hasChannel_subscriptionsAfterAdd] using hadd
  · intro stream hs
    refine ⟨?_, ?_⟩
    · simpa [mem_hubStreamsAfterAdd] using Or.inr hs
    · simpa [mem_streamsFor_subscriptionsAfterAdd _ _ _ _ hadd] using Or.inr hs

theorem subscribe_applies_success_reply_witness :
    exWorld.session.subscriptions.HasChannel exSubscribeChat.Identifier = false ∧
    (constController (some exReplyRoom, none)).Subscribe exWorld.session.uid exWorld.session.env
      exWorld.session.identifiers exSubscribeChat.Identifier = (some exReplyRoom, none) ∧
    exReplyRoom.Status = Status.SUCCESS ∧
    ((Subscribe (constController (some exReplyRoom, none)) exWorld exSubscribeChat).2 =
      (some exReplyRoom, none) ∧
    (Subscribe (constController (some exReplyRoom, none)) exWorld
      exSubscribeChat).1.session.subscriptions.HasChannel exSubscribeChat.Identifier = true ∧
    (∀ stream ∈ exReplyRoom.Streams.getD [],
      (exWorld.session.uid, stream, exSubscribeChat.Identifier) ∈
        (Subscribe (constController (some exReplyRoom, none)) exWorld
          exSubscribeChat).1.hub.streams ∧
      stream ∈ (Subscribe (constController (some exReplyRoom, none)) exWorld
        exSubscribeChat).1.session.subscriptions.StreamsFor exSubscribeChat.Identifier) ∧
    (Subscribe (constController (some exReplyRoom, none)) exWorld
      exSubscribeChat).1.session.outbound =
        exWorld.session.outbound ++ exReplyRoom.Transmissions.getD []) :=
  ⟨by decide, rfl, rfl,
    subscribe_applies_success_reply (constController (some exReplyRoom, none)) exWorld
      exSubscribeChat exReplyRoom (by decide) rfl rfl⟩

/-- C3, as stated, fails: when `Controller.Subscribe` returns a reply with
status FAILURE and a nil error, `Node.Subscribe` adds the channel to the
index. -/
theorem subscribe_failure_without_error_adds_channel :
    exWorld.session.subscriptions.HasChannel exSubscribeChat.Identifier = false ∧
    (emptyReply .FAILURE).Status = Status.FAILURE ∧
    exWorld.session.subscriptions.Channels = [] ∧
    (Subscribe (constController (some (emptyReply .FAILURE), none)) exWorld
      exSubscribeChat).1.session.subscriptions.Channels = ["chat"] := by
  decide

/-- C3, amended: for a session whose index does not contain the channel of the
message, when `Controller.Subscribe` returns a reply with status FAILURE
together with an error, the channel identifiers of the index after
`Node.Subscribe` are those before the call, the outbound queue is the one
before followed by the transmissions of the reply, and the reply and the error
are returned. -/
theorem subscribe_failure_with_error (ctl : Controller) (w : World) (msg : Message)
    (reply : CommandResult) (e : String)
    (hnot : w.session.subscriptions.HasChannel msg.Identifier = false)
    (hctl : ctl.Subscribe w.session.uid w.session.env w.session.identifiers msg.Identifier =
      (some reply, some e))
    (hstatus : reply.Status = Status.FAILURE) :
    (Subscribe ctl w msg).2 = (some reply, some e) ∧
    (Subscribe ctl w msg).1.session.subscriptions.Channels = w.session.subscriptions.Channels ∧
    (Subscribe ctl w msg).1.session.outbound =
      w.session.outbound ++ reply.Transmissions.getD [] := by
  simp [Subscribe, hnot, hctl, applyReply, handleCommandReply_fst, logControllerError, hstatus,
    World.record, channels_after_reply]

theorem subscribe_failure_with_error_witness :
    exWorld.session.subscriptions.HasChannel exSubscribeChat.Identifier = false ∧
    (constController (some { emptyReply .FAILURE with Transmissions := some ["reject"] },
      some "Application error")).Subscribe exWorld.session.uid exWorld.session.env
      exWorld.session.identifiers exSubscribeChat.Identifier =
        (some { emptyReply .FAILURE with Transmissions := some ["reject"] },
          some "Application error") ∧
    (Subscribe (constController (some { emptyReply .FAILURE with Transmissions := some ["reject"] },
      some "Application error")) exWorld exSubscribeChat).1.session.subscriptions.Channels = [] ∧
    (Subscribe (constController (some { emptyReply .FAILURE with Transmissions := some ["reject"] },
      some "Application error")) exWorld exSubscribeChat).1.session.outbound = ["reject"] :=
  have h := subscribe_failure_with_error
    (constController (some { emptyReply .FAILURE with Transmissions := some ["reject"] },
      some "Application error")) exWorld exSubscribeChat
    { emptyReply .FAILURE with Transmissions := some ["reject"] } "Application error"
    (by decide) rfl rfl
  ⟨by decide, rfl, h.2.1, h.2.2⟩

/-! ## Replies with an error -/

/-- The state after `handleCommandReply` is related to the state before as
`KeepsChannels` says, for every reply. -/
theorem keepsChannels_handleCommandReply (w w0 : World) (msg : Message) (reply : CommandResult)
    (hsession : w0.session = w.session) (hhub : w0.hub = w.hub) :
    KeepsChannels w reply (handleCommandReply w0 msg reply).1 := by
  refine ⟨?_, ?_, ?_⟩
  · simp [handleCommandReply_fst, channels_after_reply, hsession]
  · simp [handleCommandReply_fst, hsession]
  · intro hall hstopped hstreams
    constructor
    · simp only [handleCommandReply_fst]
      rw [subscriptions_after_reply_of_no_streams _ _ _ hall hstopped hstreams, hsession]
    · simp only [handleCommandReply_fst]
      rw [hubStreams_after_reply_of_no_streams _ _ _ _ hall hstopped hstreams, hhub]

/-- C4, as stated, fails: `Controller.Perform` returns a reply with status
ERROR, an error and the stream `room_1`; after `Node.Perform` the stream is in
the stream set of the channel in the index and in the hub. -/
theorem perform_error_reply_with_streams_changes_index :
    exWorldChat.session.subscriptions.HasChannel exPerformChat.Identifier = true ∧
    exReplyErrorStream.Status = Status.ERROR ∧
    exWorldChat.session.subscriptions.StreamsFor "chat" = [] ∧
    exWorldChat.hub.streams = [] ∧
    (Perform (constController (some exReplyErrorStream, some "boom")) exWorldChat
      exPerformChat).1.session.subscriptions.StreamsFor "chat" = ["room_1"] ∧
    (Perform (constController (some exReplyErrorStream, some "boom")) exWorldChat
      exPerformChat).1.hub.streams = [("s1", "room_1", "chat")] := by
  decide

/-- C4, amended: for each of subscribe, unsubscribe and message, when the
controller returns a reply with status ERROR together with an error, the
channel identifiers of the index after the call are those before, and the
outbound queue is the one before followed by the transmissions of the reply;
when moreover the reply has `stop_all_streams` false, no `stopped_streams` and
no `streams`, the whole index (channels and stream sets) and the stream index
of the hub are the same after the call as before. -/
theorem error_reply_keeps_channels (ctl : Controller) (w : World) (msg : Message)
    (reply : CommandResult) (e : String) (hstatus : reply.Status = Status.ERROR) :
    (w.session.subscriptions.HasChannel msg.Identifier = false →
      ctl.Subscribe w.session.uid w.session.env w.session.identifiers msg.Identifier =
        (some reply, some e) →
      KeepsChannels w reply (Subscribe ctl w msg).1) ∧
    (w.session.subscriptions.HasChannel msg.Identifier = true →
      ctl.Unsubscribe w.session.uid w.session.env w.session.identifiers msg.Identifier =
        (some reply, some e) →
      ∃ out, Unsubscribe ctl w msg = some out ∧ KeepsChannels w reply out.1) ∧
    (w.session.subscriptions.HasChannel msg.Identifier = true →
      ∀ data, msg.Data = .str data →
        ctl.Perform w.session.uid w.session.env w.session.identifiers msg.Identifier data =
          (some reply, some e) →
        KeepsChannels w reply (Perform ctl w msg).1) := by
  refine ⟨?_, ?_, ?_⟩
  · intro hnot hctl
    simp only [Subscribe, hnot, hctl, applyReply, logControllerError, hstatus]
    exact keepsChannels_handleCommandReply w _ msg reply rfl rfl
  · intro hhas hctl
    refine ⟨((handleCommandReply ((w.record (.controllerUnsubscribe w.session.uid
      w.session.identifiers msg.Identifier)).Log .error "Unsubscribe error: %v") msg reply).1,
      some reply, some e), ?_, keepsChannels_handleCommandReply w _ msg reply rfl rfl⟩
    simp [Unsubscribe, hhas, hctl, applyReply, logControllerError, hstatus]
  · intro hhas data hdata hctl
    simp only [Perform, hhas, hdata, hctl, applyReply, logControllerError, hstatus]
    exact keepsChannels_handleCommandReply w _ msg reply rfl rfl

theorem error_reply_keeps_channels_witness :
    exReplyError.Status = Status.ERROR ∧
    exWorld.session.subscriptions.HasChannel exSubscribeChat.Identifier = false ∧
    exWorldChat.session.subscriptions.HasChannel exUnsubscribeChat.Identifier = true ∧
    exWorldChat.session.subscriptions.HasChannel exPerformChat.Identifier = true ∧
    exPerformChat.Data = .str "speak" ∧
    KeepsChannels exWorld exReplyError
      (Subscribe (constController (some exReplyError, some "boom")) exWorld exSubscribeChat).1 ∧
    (∃ out, Unsubscribe (constController (some exReplyError, some "boom")) exWorldChat
        exUnsubscribeChat = some out ∧ KeepsChannels exWorldChat exReplyError out.1) ∧
    KeepsChannels exWorldChat exReplyError
      (Perform (constController (some exReplyError, some "boom")) exWorldChat exPerformChat).1 :=
  ⟨rfl, by decide, by decide, by decide, rfl,
    (error_reply_keeps_channels (constController (some exReplyError, some "boom")) exWorld
      exSubscribeChat exReplyError "boom" rfl).1 (by decide) rfl,
    (error_reply_keeps_channels (constController (some exReplyError, some "boom")) exWorldChat
      exUnsubscribeChat exReplyError "boom" rfl).2.1 (by decide) rfl,
    (error_reply_keeps_channels (constController (some exReplyError, some "boom")) exWorldChat
      exPerformChat exReplyError "boom" rfl).2.2 (by decide) "speak" rfl rfl⟩

/-! ## Transport failure -/

/-- C5: for each of `Node.Subscribe`, `Node.Unsubscribe` and `Node.Perform`,
when the controller is called and returns a nil reply and an error, the
operation returns a nil result and that same error, and the state after it is
the state before it but for the trace, which gains the call of the controller
and the error log line: the session (index, environment, outbound queue,
scheduled closes) and the hub are unchanged, so no transmission is sent and the
session is not disconnected. -/
theorem transport_failure_changes_nothing (ctl : Controller) (w : World) (msg : Message)
    (e : String) :
    (w.session.subscriptions.HasChannel msg.Identifier = false →
      ctl.Subscribe w.session.uid w.session.env w.session.identifiers msg.Identifier =
        (none, some e) →
      Subscribe ctl w msg =
        ({ w with trace := w.trace ++
            [.controllerSubscribe w.session.uid w.session.identifiers msg.Identifier,
             .log .error "Subscribe error: %v"] }, none, some e)) ∧
    (w.session.subscriptions.HasChannel msg.Identifier = true →
      ctl.Unsubscribe w.session.uid w.session.env w.session.identifiers msg.Identifier =
        (none, some e) →
      Unsubscribe ctl w msg =
        some ({ w with trace := w.trace ++
            [.controllerUnsubscribe w.session.uid w.session.identifiers msg.Identifier,
             .log .error "Unsubscribe error: %v"] }, none, some e)) ∧
    (w.session.subscriptions.HasChannel msg.Identifier = true →
      ∀ data, msg.Data = .str data →
        ctl.Perform w.session.uid w.session.env w.session.identifiers msg.Identifier data =
          (none, some e) →
        Perform ctl w msg =
          ({ w with trace := w.trace ++
              [.controllerPerform w.session.uid w.session.identifiers msg.Identifier data,
               .log .error "Perform error: %v"] }, none, some e)) := by
  refine ⟨?_, ?_, ?_⟩
  · intro hnot hctl
    simp [Subscribe, hnot, hctl, applyReply, logControllerError, World.Log, World.record]
  · intro hhas hctl
    simp [Unsubscribe, hhas, hctl, applyReply, logControllerError, World.Log, World.record]
  · intro hhas data hdata hctl
    simp [Perform, hhas, hdata, hctl, applyReply, logControllerError, World.Log, World.record]

theorem transport_failure_changes_nothing_witness :
    exWorld.session.subscriptions.HasChannel exSubscribeChat.Identifier = false ∧
    exWorldChat.session.subscriptions.HasChannel exUnsubscribeChat.Identifier = true ∧
    exPerformChat.Data = .str "speak" ∧
    Subscribe (constController (none, some "rpc timeout")) exWorld exSubscribeChat =
      ({ exWorld with trace := [.controllerSubscribe "s1" "user/42" "chat",
          .log .error "Subscribe error: %v"] }, none, some "rpc timeout") ∧
    Unsubscribe (constController (none, some "rpc timeout")) exWorldChat exUnsubscribeChat =
      some ({ exWorldChat with trace := [.controllerUnsubscribe "s1" "user/42" "chat",
          .log .error "Unsubscribe error: %v"] }, none, some "rpc timeout") ∧
    Perform (constController (none, some "rpc timeout")) exWorldChat exPerformChat =
      ({ exWorldChat with trace := [.controllerPerform "s1" "user/42" "chat" "speak",
          .log .error "Perform error: %v"] }, none, some "rpc timeout") :=
  ⟨by decide, by decide, rfl,
    (transport_failure_changes_nothing (constController (none, some "rpc timeout")) exWorld
      exSubscribeChat "rpc timeout").1 (by decide) rfl,
    (transport_failure_changes_nothing (constController (none, some "rpc timeout")) exWorldChat
      exUnsubscribeChat "rpc timeout").2.1 (by decide) rfl,
    (transport_failure_changes_nothing (constController (none, some "rpc timeout")) exWorldChat
      exPerformChat "rpc timeout").2.2 (by decide) "speak" rfl rfl⟩

/-! ## Removing a channel -/

/-- Removing the channel `c` forgets every change made to the entries of
`c`. -/
theorem filter_map_of_fix (c : String) (f : String × List String → String × List String)
    (hkey : ∀ p, (f p).1 = p.1) (hfix : ∀ p, p.1 ≠ c → f p = p)
    (l : List (String × List String)) :
    (l.map f).filter (fun p => !(p.1 == c)) = l.filter (fun p => !(p.1 == c)) := by
  induction l with
  | nil => rfl
  | cons p rest ih =>
    by_cases hp : p.1 = c
    · simp [List.filter_cons, hkey, hp, ih]
    · simp [List.filter_cons, hfix p hp, hp, ih]

theorem removeChannel_addChannelStream (st : SubscriptionState) (c s : String) :
    (st.AddChannelStream c s).RemoveChannel c = st.RemoveChannel c := by
  simp only [SubscriptionState.RemoveChannel, SubscriptionState.AddChannelStream,
    SubscriptionState.mk.injEq]
  apply filter_map_of_fix
  · intro p; split <;> rfl
  · intro p hp; simp [hp]

theorem removeChannel_removeChannelStream (st : SubscriptionState) (c s : String) :
    (st.RemoveChannelStream c s).RemoveChannel c = st.RemoveChannel c := by
  simp only [SubscriptionState.RemoveChannel, SubscriptionState.RemoveChannelStream,
    SubscriptionState.mk.injEq]
  apply filter_map_of_fix
  · intro p; split <;> rfl
  · intro p hp; simp [hp]

theorem removeChannel_removeChannelStreams (st : SubscriptionState) (c : String) :
    (st.RemoveChannelStreams c).RemoveChannel c = st.RemoveChannel c := by
  simp only [SubscriptionState.RemoveChannel, SubscriptionState.RemoveChannelStreams,
    SubscriptionState.mk.injEq]
  apply filter_map_of_fix
  · intro p; split <;> rfl
  · intro p hp; simp [hp]

theorem removeChannel_addChannel (st : SubscriptionState) (c : String) :
    (st.AddChannel c).RemoveChannel c = st.RemoveChannel c := by
  simp [SubscriptionState.RemoveChannel, SubscriptionState.AddChannel, List.filter_append,
    List.filter_filter]

theorem removeChannel_subscriptionsAfterAdd (c : String) (added : List String)
    (st : SubscriptionState) :
    (subscriptionsAfterAdd c added st).RemoveChannel c = st.RemoveChannel c := by
  induction added generalizing st with
  | nil => rfl
  | cons s rest ih =>
    simp only [subscriptionsAfterAdd, List.foldl_cons] at ih ⊢
    rw [ih, removeChannel_addChannelStream]

theorem removeChannel_subscriptionsAfterStop (c : String) (reply : CommandResult)
    (st : SubscriptionState) :
    (subscriptionsAfterStop c reply st).RemoveChannel c = st.RemoveChannel c := by
  unfold subscriptionsAfterStop
  split
  · exact removeChannel_removeChannelStreams st c
  · generalize reply.StoppedStreams.getD [] = stopped
    induction stopped generalizing st with
    | nil => rfl
    | cons s rest ih =>
      simp only [List.foldl_cons]
      rw [ih, removeChannel_removeChannelStream]

/-- The index after a reply for a channel that is not in the index is the
index before it. -/
theorem subscriptions_after_reply_of_not_hasChannel (c : String) (reply : CommandResult)
    (st : SubscriptionState) (h : st.HasChannel c = false) :
    subscriptionsAfterAdd c (reply.Streams.getD []) (subscriptionsAfterStop c reply st) = st := by
  have hstop : subscriptionsAfterStop c reply st = st := by
    unfold subscriptionsAfterStop
    split
    · exact SubscriptionState.removeChannelStreams_of_not_hasChannel st c h
    · exact SubscriptionState.foldl_removeChannelStream_of_not_hasChannel c _ st h
  rw [hstop]
  exact SubscriptionState.foldl_addChannelStream_of_not_hasChannel c _ st h

/-! ## The stream index of the hub under unsubscribe -/

/-- No entry of the session under the channel is in the stream index. -/
theorem filter_channel_eq_self (uid c : String) (streams : List (String × String × String))
    (h : ∀ stream, (uid, stream, c) ∉ streams) :
    streams.filter (fun t => !(t.1 == uid && t.2.2 == c)) = streams := by
  rw [List.filter_eq_self]
  rintro ⟨a, b, d⟩ ht
  by_cases ha : a = uid
  · by_cases hd : d = c
    · subst ha; subst hd
      exact absurd ht (h b)
    · simp [hd]
  · simp [ha]

theorem not_mem_filter_channel (uid c stream : String)
    (streams : List (String × String × String)) :
    (uid, stream, c) ∉ streams.filter (fun t => !(t.1 == uid && t.2.2 == c)) := by
  simp [List.mem_filter]

theorem filter_channel_hubStreamsAfterAdd (uid c : String) (added : List String)
    (streams : List (String × String × String)) :
    (hubStreamsAfterAdd uid c added streams).filter (fun t => !(t.1 == uid && t.2.2 == c)) =
      streams.filter (fun t => !(t.1 == uid && t.2.2 == c)) := by
  induction added generalizing streams with
  | nil => rfl
  | cons s rest ih =>
    simp only [hubStreamsAfterAdd, List.foldl_cons] at ih ⊢
    rw [ih]
    split
    · rfl
    · simp [List.filter_append]

theorem hubStreamsAfterStop_of_no_entries (uid c : String) (reply : CommandResult)
    (streams : List (String × String × String)) (h : ∀ stream, (uid, stream, c) ∉ streams) :
    hubStreamsAfterStop uid c reply streams = streams := by
  unfold hubStreamsAfterStop
  split
  · exact filter_channel_eq_self uid c streams h
  · generalize reply.StoppedStreams.getD [] = stopped
    induction stopped with
    | nil => rfl
    | cons s rest ih =>
      simp only [List.foldl_cons]
      have hs : streams.filter (fun t => !(t == (uid, s, c))) = streams := by
        rw [List.filter_eq_self]
        intro t ht
        have : t ≠ (uid, s, c) := fun heq => h s (heq ▸ ht)
        simpa using this
      rw [hs, ih]

/-! ## Unsubscribe -/

/-- `Node.Unsubscribe` on a reply without error: the channel is removed, the
reply is applied with `StopAllStreams` set. -/
theorem unsubscribe_of_reply (ctl : Controller) (w : World) (msg : Message)
    (reply : CommandResult)
    (hhas : w.session.subscriptions.HasChannel msg.Identifier = true)
    (hctl : ctl.Unsubscribe w.session.uid w.session.env w.session.identifiers msg.Identifier =
      (some reply, none)) :
    Unsubscribe ctl w msg =
      some ((handleCommandReply
        { w with
          session := { w.session with
            subscriptions := w.session.subscriptions.RemoveChannel msg.Identifier },
          trace := w.trace ++
            [.controllerUnsubscribe w.session.uid w.session.identifiers msg.Identifier,
             .log .debug "Unsubscribed from channel: %s"] }
        msg { reply with StopAllStreams := true }).1,
        some { reply with StopAllStreams := true }, none) := by
  simp [Unsubscribe, hhas, hctl, applyReply, World.Log, World.record]

/-- The index after a successful unsubscribe is the index before it without
the channel. -/
theorem unsubscribe_subscriptions (ctl : Controller) (w : World) (msg : Message)
    (reply : CommandResult) (out : Outcome)
    (hhas : w.session.subscriptions.HasChannel msg.Identifier = true)
    (hctl : ctl.Unsubscribe w.session.uid w.session.env w.session.identifiers msg.Identifier =
      (some reply, none))
    (hout : Unsubscribe ctl w msg = some out) :
    out.1.session.subscriptions = w.session.subscriptions.RemoveChannel msg.Identifier := by
  rw [unsubscribe_of_reply ctl w msg reply hhas hctl] at hout
  cases hout
  simp only [handleCommandReply_fst]
  exact subscriptions_after_reply_of_not_hasChannel _ _ _
    (SubscriptionState.hasChannel_removeChannel _ _)

/-- The stream index of the hub after a successful unsubscribe. -/
theorem unsubscribe_hub_streams (ctl : Controller) (w : World) (msg : Message)
    (reply : CommandResult) (out : Outcome)
    (hhas : w.session.subscriptions.HasChannel msg.Identifier = true)
    (hctl : ctl.Unsubscribe w.session.uid w.session.env w.session.identifiers msg.Identifier =
      (some reply, none))
    (hout : Unsubscribe ctl w msg = some out) :
    out.1.hub.streams = hubStreamsAfterAdd w.session.uid msg.Identifier (reply.Streams.getD [])
      (w.hub.streams.filter (fun t => !(t.1 == w.session.uid && t.2.2 == msg.Identifier))) := by
  rw [unsubscribe_of_reply ctl w msg reply hhas hctl] at hout
  cases hout
  simp [handleCommandReply_fst, hubStreamsAfterStop]

/-- C6: for a session whose index does not contain the channel `c` of the
message, `Node.Unsubscribe` returns a nil result and the error
"Unknown subscription c", and the state after it is the state before it (no
call of the controller in the trace, index and hub unchanged), whatever the
controller is; this is the case of a session that has just unsubscribed from
`c` with a reply without error: a second unsubscribe gives that error and
changes nothing. -/
theorem unsubscribe_unknown_subscription (ctl : Controller) (w : World) (msg : Message) :
    (w.session.subscriptions.HasChannel msg.Identifier = false →
      Unsubscribe ctl w msg =
        some (w, none, some ("Unknown subscription " ++ msg.Identifier))) ∧
    (∀ reply, w.session.subscriptions.HasChannel msg.Identifier = true →
      ctl.Unsubscribe w.session.uid w.session.env w.session.identifiers msg.Identifier =
        (some reply, none) →
      ∃ out, Unsubscribe ctl w msg = some out ∧
        ∀ ctl2 : Controller, Unsubscribe ctl2 out.1 msg =
          some (out.1, none, some ("Unknown subscription " ++ msg.Identifier))) := by
  refine ⟨?_, ?_⟩
  · intro hnot
    simp [Unsubscribe, hnot]
  · intro reply hhas hctl
    refine ⟨_, unsubscribe_of_reply ctl w msg reply hhas hctl, ?_⟩
    intro ctl2
    have hsub := unsubscribe_subscriptions ctl w msg reply _ hhas hctl
      (unsubscribe_of_reply ctl w msg reply hhas hctl)
    have hnot := SubscriptionState.hasChannel_removeChannel w.session.subscriptions msg.Identifier
    rw [← hsub] at hnot
    simp [Unsubscribe, hnot]

theorem unsubscribe_unknown_subscription_witness :
    exWorld.session.subscriptions.HasChannel exUnsubscribeChat.Identifier = false ∧
    exWorldRoom.session.subscriptions.HasChannel exUnsubscribeChat.Identifier = true ∧
    Unsubscribe (constController (some (emptyReply .SUCCESS), none)) exWorld exUnsubscribeChat =
      some (exWorld, none, some ("Unknown subscription " ++ exUnsubscribeChat.Identifier)) ∧
    (∃ out, Unsubscribe (constController (some (emptyReply .SUCCESS), none)) exWorldRoom
        exUnsubscribeChat = some out ∧
      ∀ ctl2 : Controller, Unsubscribe ctl2 out.1 exUnsubscribeChat =
        some (out.1, none, some ("Unknown subscription " ++ exUnsubscribeChat.Identifier))) :=
  ⟨by decide, by decide,
    (unsubscribe_unknown_subscription (constController (some (emptyReply .SUCCESS), none)) exWorld
      exUnsubscribeChat).1 (by decide),
    (unsubscribe_unknown_subscription (constController (some (emptyReply .SUCCESS), none))
      exWorldRoom exUnsubscribeChat).2 (emptyReply .SUCCESS) (by decide) rfl⟩

/-- C7: the code at the failing input.  The session is subscribed to `chat`
with the stream `room_1`, the reply of `Controller.Unsubscribe` comes without
error and lists the stream `room_2`; after `Node.Unsubscribe` the index no
longer has `chat` but the hub holds `(s1, room_2, chat)`: the `streams` of the
reply are applied after the forced stop of all streams. -/
theorem unsubscribe_reply_with_streams_leaves_hub_entry :
    exWorldRoom.session.subscriptions.HasChannel exUnsubscribeChat.Identifier = true ∧
    (Unsubscribe (constController (some exReplyUnsubscribeStream, none)) exWorldRoom
      exUnsubscribeChat).map (fun out => out.1.session.subscriptions.channels) = some [] ∧
    (Unsubscribe (constController (some exReplyUnsubscribeStream, none)) exWorldRoom
      exUnsubscribeChat).map (fun out => out.1.hub.streams) =
        some [("s1", "room_2", "chat")] := by
  decide

/-- What `Node.Unsubscribe` does reach on a reply without error, for a session
subscribed to the channel `c`: the reply is returned with `StopAllStreams` set
to true whatever it was, and no error; the index no longer contains `c`; and
the hub holds no `(sid, stream, c)` entry as long as the reply lists no
`streams`. -/
theorem unsubscribe_forces_stop_all_streams (ctl : Controller) (w : World) (msg : Message)
    (reply : CommandResult)
    (hhas : w.session.subscriptions.HasChannel msg.Identifier = true)
    (hctl : ctl.Unsubscribe w.session.uid w.session.env w.session.identifiers msg.Identifier =
      (some reply, none)) :
    ∃ out, Unsubscribe ctl w msg = some out ∧
      out.2 = (some { reply with StopAllStreams := true }, none) ∧
      out.1.session.subscriptions.HasChannel msg.Identifier = false ∧
      (reply.Streams.getD [] = [] →
        ∀ stream, (w.session.uid, stream, msg.Identifier) ∉ out.1.hub.streams) := by
  have hout := unsubscribe_of_reply ctl w msg reply hhas hctl
  refine ⟨_, hout, rfl, ?_, ?_⟩
  · rw [unsubscribe_subscriptions ctl w msg reply _ hhas hctl hout]
    exact SubscriptionState.hasChannel_removeChannel _ _
  · intro hstreams stream
    rw [unsubscribe_hub_streams ctl w msg reply _ hhas hctl hout, hstreams]
    exact not_mem_filter_channel _ _ _ _

theorem unsubscribe_forces_stop_all_streams_witness :
    exWorldRoom.session.subscriptions.HasChannel exUnsubscribeChat.Identifier = true ∧
    ∃ out, Unsubscribe (constController (some (emptyReply .SUCCESS), none)) exWorldRoom
        exUnsubscribeChat = some out ∧
      out.2 = (some { emptyReply .SUCCESS with StopAllStreams := true }, none) ∧
      out.1.session.subscriptions.HasChannel exUnsubscribeChat.Identifier = false ∧
      ((emptyReply .SUCCESS).Streams.getD [] = [] →
        ∀ stream, (exWorldRoom.session.uid, stream, exUnsubscribeChat.Identifier) ∉
          out.1.hub.streams) :=
  ⟨by decide, unsubscribe_forces_stop_all_streams
    (constController (some (emptyReply .SUCCESS), none)) exWorldRoom exUnsubscribeChat
    (emptyReply .SUCCESS) (by decide) rfl⟩

/-! ## Subscribe, then unsubscribe -/

/-- `Node.Subscribe` on a reply without error: the channel is added, the reply
is applied. -/
theorem subscribe_of_reply (ctl : Controller) (w : World) (msg : Message)
    (reply : CommandResult)
    (hnot : w.session.subscriptions.HasChannel msg.Identifier = false)
    (hctl : ctl.Subscribe w.session.uid w.session.env w.session.identifiers msg.Identifier =
      (some reply, none)) :
    Subscribe ctl w msg =
      ((handleCommandReply
        { w with
          session := { w.session with
            subscriptions := w.session.subscriptions.AddChannel msg.Identifier },
          trace := w.trace ++
            [.controllerSubscribe w.session.uid w.session.identifiers msg.Identifier,
             .log .debug "Subscribed to channel: %s"] }
        msg reply).1, some reply, none) := by
  simp [Subscribe, hnot, hctl, applyReply, World.Log, World.record]

/-- C8: the code at the failing input.  The session is not subscribed to
`chat` and the hub is empty, both replies are successful, the reply of
unsubscribe lists the stream `room_2`; after subscribe and unsubscribe the hub
holds `(s1, room_2, chat)`, which it did not hold before: the `streams` of the
unsubscribe reply are applied after the forced stop of all streams. -/
theorem subscribe_unsubscribe_not_restored :
    exWorld.session.subscriptions.HasChannel exSubscribeChat.Identifier = false ∧
    exReplyRoom.Status = Status.SUCCESS ∧ exReplyUnsubscribeStream.Status = Status.SUCCESS ∧
    exWorld.hub.streams = [] ∧
    (Unsubscribe (pairController (some exReplyRoom, none) (some exReplyUnsubscribeStream, none))
      (Subscribe (pairController (some exReplyRoom, none) (some exReplyUnsubscribeStream, none))
        exWorld exSubscribeChat).1 exUnsubscribeChat).map (fun out => out.1.hub.streams) =
      some [("s1", "room_2", "chat")] := by
  decide

/-- Where subscribe followed by unsubscribe does restore the state: for a
session not subscribed to the channel `c`, with no entry `(sid, stream, c)` in
the hub, and for a pair of successful replies of which the unsubscribe reply
lists no `streams`, the subscription index of the session and the stream index
of the hub are equal to their state before the subscribe. -/
theorem subscribe_then_unsubscribe (ctl : Controller) (w : World) (msgS msgU : Message)
    (r1 r2 : CommandResult)
    (hid : msgU.Identifier = msgS.Identifier)
    (hnot : w.session.subscriptions.HasChannel msgS.Identifier = false)
    (hhub : ∀ stream, (w.session.uid, stream, msgS.Identifier) ∉ w.hub.streams)
    (hsub : ctl.Subscribe w.session.uid w.session.env w.session.identifiers msgS.Identifier =
      (some r1, none))
    (_hs1 : r1.Status = Status.SUCCESS)
    (hunsub : ctl.Unsubscribe (Subscribe ctl w msgS).1.session.uid
      (Subscribe ctl w msgS).1.session.env (Subscribe ctl w msgS).1.session.identifiers
      msgU.Identifier = (some r2, none))
    (_hs2 : r2.Status = Status.SUCCESS)
    (hstreams : r2.Streams.getD [] = []) :
    ∃ out, Unsubscribe ctl (Subscribe ctl w msgS).1 msgU = some out ∧
      out.1.session.subscriptions = w.session.subscriptions ∧
      out.1.hub.streams = w.hub.streams := by
  have hw1 := subscribe_of_reply ctl w msgS r1 hnot hsub
  have hsubs1 : (Subscribe ctl w msgS).1.session.subscriptions =
      subscriptionsAfterAdd msgS.Identifier (r1.Streams.getD [])
        (subscriptionsAfterStop msgS.Identifier r1
          (w.session.subscriptions.AddChannel msgS.Identifier)) := by
    rw [hw1]; simp [handleCommandReply_fst]
  have hhub1 : (Subscribe ctl w msgS).1.hub.streams =
      hubStreamsAfterAdd w.session.uid msgS.Identifier (r1.Streams.getD [])
        (hubStreamsAfterStop w.session.uid msgS.Identifier r1 w.hub.streams) := by
    rw [hw1]; simp [handleCommandReply_fst]
  have huid1 : (Subscribe ctl w msgS).1.session.uid = w.session.uid := by
    rw [hw1]; simp [handleCommandReply_fst]
  have hhas1 : (Subscribe ctl w msgS).1.session.subscriptions.HasChannel msgU.Identifier
      = true := by
    rw [hsubs1, hid, hasChannel_subscriptionsAfterAdd, hasChannel_subscriptionsAfterStop]
    exact SubscriptionState.hasChannel_addChannel _ _
  have hout := unsubscribe_of_reply ctl _ msgU r2 hhas1 hunsub
  refine ⟨_, hout, ?_, ?_⟩
  · rw [unsubscribe_subscriptions ctl _ msgU r2 _ hhas1 hunsub hout, hsubs1, hid,
      removeChannel_subscriptionsAfterAdd, removeChannel_subscriptionsAfterStop,
      removeChannel_addChannel]
    exact SubscriptionState.removeChannel_of_not_hasChannel _ _ hnot
  · rw [unsubscribe_hub_streams ctl _ msgU r2 _ hhas1 hunsub hout, hstreams, hhub1, huid1, hid,
      hubStreamsAfterStop_of_no_entries _ _ _ _ hhub]
    simp only [hubStreamsAfterAdd, List.foldl_nil]
    have := filter_channel_hubStreamsAfterAdd w.session.uid msgS.Identifier (r1.Streams.getD [])
      w.hub.streams
    simp only [hubStreamsAfterAdd] at this
    rw [this]
    exact filter_channel_eq_self _ _ _ hhub

theorem subscribe_then_unsubscribe_witness :
    exUnsubscribeChat.Identifier = exSubscribeChat.Identifier ∧
    exWorld.session.subscriptions.HasChannel exSubscribeChat.Identifier = false ∧
    (∀ stream, (exWorld.session.uid, stream, exSubscribeChat.Identifier) ∉ exWorld.hub.streams) ∧
    exReplyRoom.Status = Status.SUCCESS ∧ (emptyReply .SUCCESS).Status = Status.SUCCESS ∧
    (emptyReply .SUCCESS).Streams.getD [] = [] ∧
    ∃ out, Unsubscribe (pairController (some exReplyRoom, none) (some (emptyReply .SUCCESS), none))
        (Subscribe (pairController (some exReplyRoom, none) (some (emptyReply .SUCCESS), none))
          exWorld exSubscribeChat).1 exUnsubscribeChat = some out ∧
      out.1.session.subscriptions = exWorld.session.subscriptions ∧
      out.1.hub.streams = exWorld.hub.streams :=
  ⟨rfl, by decide, by simp [exWorld], rfl, rfl, rfl,
    subscribe_then_unsubscribe
      (pairController (some exReplyRoom, none) (some (emptyReply .SUCCESS), none)) exWorld
      exSubscribeChat exUnsubscribeChat exReplyRoom (emptyReply .SUCCESS) rfl (by decide)
      (by simp [exWorld]) rfl rfl rfl rfl rfl⟩

/-! ## Perform -/

/-- C9: for a message command whose data is not a string, `Node.Perform`
returns a nil result and a non-nil error and the state after it is the state
before it (no call of the controller in the trace, session and hub unchanged),
whatever the controller is; and for a message command whose channel is not in
the index of the session, `Node.Perform` returns the error
"Unknown subscription c" in the same way. -/
theorem perform_local_errors (ctl : Controller) (w : World) (msg : Message) :
    (∀ printed, msg.Data = .other printed →
      Perform ctl w msg = (w, none, some
        (if w.session.subscriptions.HasChannel msg.Identifier = true then
          "Perform data must be a string, got " ++ printed
        else "Unknown subscription " ++ msg.Identifier))) ∧
    (w.session.subscriptions.HasChannel msg.Identifier = false →
      Perform ctl w msg = (w, none, some ("Unknown subscription " ++ msg.Identifier))) := by
  refine ⟨?_, ?_⟩
  · intro printed hdata
    cases hhas : w.session.subscriptions.HasChannel msg.Identifier <;>
      simp [Perform, hhas, hdata]
  · intro hnot
    simp [Perform, hnot]

theorem perform_local_errors_witness :
    ({ exPerformChat with Data := .other "42" } : Message).Data = .other "42" ∧
    exWorld.session.subscriptions.HasChannel exPerformChat.Identifier = false ∧
    Perform (constController (some exReplyRoom, none)) exWorldChat
      { exPerformChat with Data := .other "42" } =
        (exWorldChat, none, some "Perform data must be a string, got 42") ∧
    Perform (constController (some exReplyRoom, none)) exWorld exPerformChat =
      (exWorld, none, some ("Unknown subscription " ++ exPerformChat.Identifier)) :=
  ⟨rfl, by decide,
    (perform_local_errors (constController (some exReplyRoom, none)) exWorldChat
      { exPerformChat with Data := .other "42" }).1 "42" rfl,
    (perform_local_errors (constController (some exReplyRoom, none)) exWorld
      exPerformChat).2 (by decide)⟩

/-! ## The order of the effects of a reply -/

/-- C10, as stated, fails: for a reply with one broadcast and one
transmission, the broadcast is handed to the hub before the transmission is
sent to the session. -/
theorem reply_broadcast_before_transmission :
    (handleCommandReply exWorldChat exPerformChat exReplyBroadcast).1.trace =
      [.counterIncrement "broadcast_msg_total", .log .debug "Incoming pubsub message: %v",
       .hubBroadcastMessage { Stream := "room_1", Data := "hi" }, .sendJSONTransmission "t"] ∧
    List.indexOf (Event.hubBroadcastMessage { Stream := "room_1", Data := "hi" })
        (handleCommandReply exWorldChat exPerformChat exReplyBroadcast).1.trace <
      List.indexOf (Event.sendJSONTransmission "t")
        (handleCommandReply exWorldChat exPerformChat exReplyBroadcast).1.trace := by
  decide

/-- C10, amended: for every command reply, the calls `handleCommandReply`
makes are, in this order: the one for `stop_all_streams` or, only when
`stop_all_streams` is false, those for the `stopped_streams`; then the
`streams` additions, the `istate` merge, the `cstate` merge, the broadcasts to
the hub, the transmissions to the session (and last the close of a reply with
`disconnect`); in particular every broadcast of a reply is handed to the hub
before any transmission of the same reply is sent to the session. -/
theorem handleCommandReply_order (w : World) (msg : Message) (reply : CommandResult) :
    (handleCommandReply w msg reply).1.trace =
      w.trace ++ (stopEvents w.session.uid msg.Identifier reply ++
        streamEvents w.session.uid msg.Identifier reply ++ istateEvents msg.Identifier reply ++
        cstateEvents reply ++ broadcastEvents reply ++ transmitEvents reply ++
        disconnectEvents reply) ∧
    ∀ b ∈ reply.Broadcasts.getD [], ∀ t ∈ reply.Transmissions.getD [],
      ∃ pre mid post, (handleCommandReply w msg reply).1.trace =
        pre ++ Event.hubBroadcastMessage b :: mid ++ Event.sendJSONTransmission t :: post := by
  have htrace : (handleCommandReply w msg reply).1.trace =
      w.trace ++ replyEvents w.session.uid msg.Identifier reply := by
    simp [handleCommandReply_fst]
  refine ⟨by rw [htrace]; rfl, ?_⟩
  intro b hb t ht
  obtain ⟨b1, b2, hb⟩ := List.append_of_mem hb
  obtain ⟨t1, t2, ht⟩ := List.append_of_mem ht
  refine ⟨w.trace ++ stopEvents w.session.uid msg.Identifier reply ++
      streamEvents w.session.uid msg.Identifier reply ++ istateEvents msg.Identifier reply ++
      cstateEvents reply ++ b1.flatMap broadcastCalls ++
      [.counterIncrement metricsBroadcastMsg, .log .debug "Incoming pubsub message: %v"],
    b2.flatMap broadcastCalls ++ t1.map Event.sendJSONTransmission,
    t2.map Event.sendJSONTransmission ++ disconnectEvents reply, ?_⟩
  rw [htrace]
  simp [replyEvents, broadcastEvents, transmitEvents, hb, ht, broadcastCalls,
    List.flatMap_append, List.append_assoc]

theorem handleCommandReply_order_witness :
    (handleCommandReply exWorldChat exPerformChat exReplyBroadcast).1.trace =
      exWorldChat.trace ++ (stopEvents exWorldChat.session.uid exPerformChat.Identifier
          exReplyBroadcast ++
        streamEvents exWorldChat.session.uid exPerformChat.Identifier exReplyBroadcast ++
        istateEvents exPerformChat.Identifier exReplyBroadcast ++
        cstateEvents exReplyBroadcast ++ broadcastEvents exReplyBroadcast ++
        transmitEvents exReplyBroadcast ++ disconnectEvents exReplyBroadcast) ∧
    ∃ pre mid post, (handleCommandReply exWorldChat exPerformChat exReplyBroadcast).1.trace =
      pre ++ Event.hubBroadcastMessage { Stream := "room_1", Data := "hi" } :: mid ++
        Event.sendJSONTransmission "t" :: post :=
  ⟨(handleCommandReply_order exWorldChat exPerformChat exReplyBroadcast).1,
    (handleCommandReply_order exWorldChat exPerformChat exReplyBroadcast).2
      { Stream := "room_1", Data := "hi" } (by decide) "t" (by decide)⟩

/-! ## Counters -/

theorem find?_map_of_key (name : String) (f : String × Nat → String × Nat)
    (hkey : ∀ q, (f q).1 = q.1) (l : List (String × Nat)) :
    (l.map f).find? (fun q => q.1 == name) = (l.find? (fun q => q.1 == name)).map f := by
  induction l with
  | nil => rfl
  | cons q rest ih =>
    rw [List.map_cons, List.find?_cons, List.find?_cons, hkey]
    cases (q.1 == name)
    · exact ih
    · rfl

theorem find?_key_of_any_false (name : String) (l : List (String × Nat))
    (h : l.any (fun q => q.1 == name) = false) : l.find? (fun q => q.1 == name) = none := by
  rw [List.find?_eq_none]
  intro q hq
  rw [List.any_eq_false] at h
  exact h q hq

theorem counter_counterIncrement_self (m : Metrics) (name : String) :
    (m.CounterIncrement name).Counter name = m.Counter name + 1 := by
  cases m with
  | mk counters =>
    simp only [Metrics.CounterIncrement, Metrics.Counter]
    cases hany : counters.any (fun q => q.1 == name)
    · rw [find?_key_of_any_false name counters hany]
      simp [List.find?_append, find?_key_of_any_false name counters hany]
    · simp only [if_true]
      rw [find?_map_of_key name _ (fun q => by split <;> rfl)]
      cases hfind : counters.find? (fun q => q.1 == name) with
      | none =>
        rw [List.find?_eq_none] at hfind
        rw [List.any_eq_true] at hany
        obtain ⟨q, hq, hqn⟩ := hany
        exact absurd hqn (hfind q hq)
      | some q =>
        have hq := List.find?_some hfind
        simp only [Option.map, hq, if_true]

theorem counter_counterIncrement_of_ne (m : Metrics) (name other : String) (h : other ≠ name) :
    (m.CounterIncrement other).Counter name = m.Counter name := by
  cases m with
  | mk counters =>
    simp only [Metrics.CounterIncrement, Metrics.Counter]
    cases hany : counters.any (fun q => q.1 == other)
    · have hne : (other == name) = false := by simpa using h
      cases hfind : counters.find? (fun q => q.1 == name) with
      | none => simp [List.find?_append, hfind, hne]
      | some q => simp [List.find?_append, hfind]
    · simp only [if_true]
      rw [find?_map_of_key name _ (fun q => by split <;> rfl)]
      cases hfind : counters.find? (fun q => q.1 == name) with
      | none => rfl
      | some q =>
        have hq := List.find?_some hfind
        have hqo : (q.1 == other) = false := by
          have h1 : q.1 = name := by simpa using hq
          simpa [h1] using Ne.symm h
        simp [Option.map, hqo]

theorem counter_foldl_counterIncrement_of_ne {α : Type} (l : List α) (m : Metrics)
    (name other : String) (h : other ≠ name) :
    (l.foldl (fun acc _ => acc.CounterIncrement other) m).Counter name = m.Counter name := by
  induction l generalizing m with
  | nil => rfl
  | cons a rest ih =>
    simp only [List.foldl_cons]
    rw [ih, counter_counterIncrement_of_ne m name other h]

theorem counter_foldl_counterIncrement_self {α : Type} (l : List α) (m : Metrics)
    (name : String) :
    (l.foldl (fun acc _ => acc.CounterIncrement name) m).Counter name =
      m.Counter name + l.length := by
  induction l generalizing m with
  | nil => rfl
  | cons a rest ih =>
    simp only [List.foldl_cons, List.length_cons]
    rw [ih, counter_counterIncrement_self]
    omega

/-! ## The close a reply asks for -/

theorem effectEvents_no_disconnect (uid channel : String) (reply : CommandResult) :
    ∀ e ∈ effectEvents uid channel reply, e.isDisconnect = false := by
  intro e he
  simp only [effectEvents, List.mem_append] at he
  rcases he with ((((he | he) | he) | he) | he) | he
  · unfold stopEvents at he
    split at he
    · simp only [List.mem_singleton] at he
      subst he; rfl
    · obtain ⟨s, _, rfl⟩ := List.mem_map.mp he
      rfl
  · obtain ⟨s, _, rfl⟩ := List.mem_map.mp he
    rfl
  · unfold istateEvents at he
    split at he
    · simp only [List.mem_singleton] at he
      subst he; rfl
    · simp at he
  · unfold cstateEvents at he
    split at he
    · simp only [List.mem_singleton] at he
      subst he; rfl
    · simp at he
  · obtain ⟨b, _, hb⟩ := List.mem_flatMap.mp he
    simp only [broadcastCalls, List.mem_cons, List.mem_singleton, List.not_mem_nil,
      or_false] at hb
    rcases hb with rfl | rfl | rfl <;> rfl
  · obtain ⟨t, _, rfl⟩ := List.mem_map.mp he
    rfl

/-- C11: for a command reply with `disconnect` true, `handleCommandReply`
schedules the close of the session once, with the reason "Command Failed": the
calls it makes are those for the stream changes, the state merges, the
broadcasts and the transmissions of the reply, none of which is a close,
followed by the one close; for a reply with `disconnect` false it makes these
calls and no close. -/
theorem handleCommandReply_disconnect (w : World) (msg : Message) (reply : CommandResult) :
    (reply.Disconnect = true →
      (handleCommandReply w msg reply).1.trace =
        w.trace ++ effectEvents w.session.uid msg.Identifier reply ++
          [.sessionDisconnect "Command Failed" CloseAbnormalClosure] ∧
      (∀ e ∈ effectEvents w.session.uid msg.Identifier reply, e.isDisconnect = false) ∧
      (handleCommandReply w msg reply).1.session.disconnects =
        w.session.disconnects ++ [("Command Failed", CloseAbnormalClosure)]) ∧
    (reply.Disconnect = false →
      (handleCommandReply w msg reply).1.trace =
        w.trace ++ effectEvents w.session.uid msg.Identifier reply ∧
      (∀ e ∈ effectEvents w.session.uid msg.Identifier reply, e.isDisconnect = false) ∧
      (handleCommandReply w msg reply).1.session.disconnects = w.session.disconnects) := by
  refine ⟨?_, ?_⟩
  · intro hd
    refine ⟨?_, effectEvents_no_disconnect _ _ _, ?_⟩
    · simp [handleCommandReply_fst, replyEvents, effectEvents, disconnectEvents, hd]
    · simp [handleCommandReply_fst, hd]
  · intro hd
    refine ⟨?_, effectEvents_no_disconnect _ _ _, ?_⟩
    · simp [handleCommandReply_fst, replyEvents, effectEvents, disconnectEvents, hd]
    · simp [handleCommandReply_fst, hd]

theorem handleCommandReply_disconnect_witness :
    ({ exReplyBroadcast with Disconnect := true } : CommandResult).Disconnect = true ∧
    exReplyBroadcast.Disconnect = false ∧
    (handleCommandReply exWorldChat exPerformChat
      { exReplyBroadcast with Disconnect := true }).1.trace =
        [.counterIncrement "broadcast_msg_total", .log .debug "Incoming pubsub message: %v",
         .hubBroadcastMessage { Stream := "room_1", Data := "hi" }, .sendJSONTransmission "t",
         .sessionDisconnect "Command Failed" 1006] ∧
    (handleCommandReply exWorldChat exPerformChat
      { exReplyBroadcast with Disconnect := true }).1.session.disconnects =
        [("Command Failed", 1006)] ∧
    (handleCommandReply exWorldChat exPerformChat exReplyBroadcast).1.session.disconnects = [] :=
  ⟨rfl, rfl,
    ((handleCommandReply_disconnect exWorldChat exPerformChat
      { exReplyBroadcast with Disconnect := true }).1 rfl).1,
    ((handleCommandReply_disconnect exWorldChat exPerformChat
      { exReplyBroadcast with Disconnect := true }).1 rfl).2.2,
    ((handleCommandReply_disconnect exWorldChat exPerformChat exReplyBroadcast).2 rfl).2.2⟩

/-! ## Authenticate -/

theorem mem_sessions_addSession (h : Hub) (sid identifiers : String) :
    sid ∈ (h.AddSession sid identifiers).sessions := by
  unfold Hub.AddSession
  by_cases hs : sid ∈ h.sessions <;> simp [hs]

/-- `Node.Authenticate` on a reply with status SUCCESS and no error. -/
theorem authenticate_of_success (ctl : Controller) (w : World) (res : ConnectResult)
    (hctl : ctl.Authenticate w.session.uid w.session.env = (some res, none))
    (hstatus : res.Status = Status.SUCCESS) :
    Authenticate ctl w =
      some ((handleCallReply
        { w with
          session := { w.session with identifiers := res.Identifier, Connected := true },
          hub := w.hub.AddSession w.session.uid res.Identifier,
          trace := w.trace ++ [.controllerAuthenticate w.session.uid,
            .hubAddSession w.session.uid res.Identifier] }
        res.ToCallResult).1, some res, none) := by
  simp [Authenticate, hctl, hstatus, World.record]

/-- `Node.Authenticate` on a reply without success and without error; the
counter of failed authentications moves for the status FAILURE only. -/
theorem authenticate_of_no_success (ctl : Controller) (w : World) (res : ConnectResult)
    (hctl : ctl.Authenticate w.session.uid w.session.env = (some res, none))
    (hstatus : res.Status ≠ Status.SUCCESS) :
    Authenticate ctl w =
      some (((handleCallReply
        (if res.Status = Status.FAILURE then
          { w with metrics := w.metrics.CounterIncrement metricsFailedAuths,
                   trace := w.trace ++ [.controllerAuthenticate w.session.uid,
                     .counterIncrement metricsFailedAuths] }
        else { w with trace := w.trace ++ [.controllerAuthenticate w.session.uid] })
        res.ToCallResult).1).Disconnect "Auth Failed" CloseNormalClosure, some res, none) := by
  by_cases hf : res.Status = Status.FAILURE <;>
    simp [Authenticate, hctl, hstatus, hf, World.record]

/-- C12, as stated, fails: the reply of Authenticate has status FAILURE and
one broadcast; the session is not registered, but the hub is touched: the
broadcast is handed to it. -/
theorem authenticate_failure_hands_broadcast_to_hub :
    exConnectFailure.Status = Status.FAILURE ∧
    exWorldNew.hub.broadcasts = [] ∧
    (Authenticate (authController (some exConnectFailure, none)) exWorldNew).map
      (fun out => out.1.hub.broadcasts) = some [{ Stream := "audit", Data := "rejected" }] ∧
    (Authenticate (authController (some exConnectFailure, none)) exWorldNew).map
      (fun out => out.1.hub.sessions) = some [] := by
  decide

/-- C12, amended: when the controller returns no error and a reply with status
SUCCESS, `Node.Authenticate` sets the identifiers of the session to the
identifier of the reply, sets Connected and registers the session with the hub;
when it returns no error and a reply with another status, or an error, the
identifiers and Connected are not changed and the session is not added to the
hub: the indices of the hub are unchanged, the hub only receives the
broadcasts of the reply, and nothing when the controller returned an error.
With neither reply nor error the operation does not return. -/
theorem authenticate_registers_on_success_only (ctl : Controller) (w : World) :
    (∀ res, ctl.Authenticate w.session.uid w.session.env = (some res, none) →
      res.Status = Status.SUCCESS →
      ∃ out, Authenticate ctl w = some out ∧ out.2 = (some res, none) ∧
        out.1.session.identifiers = res.Identifier ∧ out.1.session.Connected = true ∧
        w.session.uid ∈ out.1.hub.sessions ∧
        out.1.hub = { w.hub.AddSession w.session.uid res.Identifier with
          broadcasts := w.hub.broadcasts ++ res.Broadcasts.getD [] }) ∧
    (∀ res, ctl.Authenticate w.session.uid w.session.env = (some res, none) →
      res.Status ≠ Status.SUCCESS →
      ∃ out, Authenticate ctl w = some out ∧ out.2 = (some res, none) ∧
        out.1.session.identifiers = w.session.identifiers ∧
        out.1.session.Connected = w.session.Connected ∧
        out.1.hub = { w.hub with broadcasts := w.hub.broadcasts ++ res.Broadcasts.getD [] }) ∧
    (∀ res e, ctl.Authenticate w.session.uid w.session.env = (res, some e) →
      ∃ out, Authenticate ctl w = some out ∧ out.2 = (res, some e) ∧
        out.1.session.identifiers = w.session.identifiers ∧
        out.1.session.Connected = w.session.Connected ∧ out.1.hub = w.hub) ∧
    (ctl.Authenticate w.session.uid w.session.env = (none, none) →
      Authenticate ctl w = none) := by
  refine ⟨?_, ?_, ?_, ?_⟩
  · intro res hctl hstatus
    refine ⟨_, authenticate_of_success ctl w res hctl hstatus, rfl, ?_, ?_, ?_, ?_⟩
    · simp [handleCallReply_fst]
    · simp [handleCallReply_fst]
    · simp only [handleCallReply_fst]
      exact mem_sessions_addSession _ _ _
    · simp [handleCallReply_fst, ConnectResult.ToCallResult, Hub.AddSession]
  · intro res hctl hstatus
    refine ⟨_, authenticate_of_no_success ctl w res hctl hstatus, rfl, ?_, ?_, ?_⟩
    · split <;> simp [handleCallReply_fst, World.Disconnect]
    · split <;> simp [handleCallReply_fst, World.Disconnect]
    · split <;> simp [handleCallReply_fst, World.Disconnect, ConnectResult.ToCallResult]
  · intro res e hctl
    refine ⟨((w.record (.controllerAuthenticate w.session.uid)).Disconnect "Auth Error"
      CloseInternalServerErr, res, some e), ?_, rfl, rfl, rfl, rfl⟩
    simp [Authenticate, hctl]
  · intro hctl
    simp [Authenticate, hctl]

theorem authenticate_registers_on_success_only_witness :
    exConnectSuccess.Status = Status.SUCCESS ∧ exConnectFailure.Status ≠ Status.SUCCESS ∧
    (∃ out, Authenticate (authController (some exConnectSuccess, none)) exWorldNew = some out ∧
      out.2 = (some exConnectSuccess, none) ∧
      out.1.session.identifiers = exConnectSuccess.Identifier ∧
      out.1.session.Connected = true ∧ exWorldNew.session.uid ∈ out.1.hub.sessions ∧
      out.1.hub = { exWorldNew.hub.AddSession exWorldNew.session.uid
          exConnectSuccess.Identifier with
        broadcasts := exWorldNew.hub.broadcasts ++ exConnectSuccess.Broadcasts.getD [] }) ∧
    (∃ out, Authenticate (authController (some exConnectFailure, none)) exWorldNew = some out ∧
      out.2 = (some exConnectFailure, none) ∧
      out.1.session.identifiers = exWorldNew.session.identifiers ∧
      out.1.session.Connected = exWorldNew.session.Connected ∧
      out.1.hub = { exWorldNew.hub with
        broadcasts := exWorldNew.hub.broadcasts ++ exConnectFailure.Broadcasts.getD [] }) ∧
    (∃ out, Authenticate (authController (none, some "rpc timeout")) exWorldNew = some out ∧
      out.2 = (none, some "rpc timeout") ∧
      out.1.session.identifiers = exWorldNew.session.identifiers ∧
      out.1.session.Connected = exWorldNew.session.Connected ∧ out.1.hub = exWorldNew.hub) ∧
    Authenticate (authController (none, none)) exWorldNew = none :=
  ⟨rfl, by decide,
    (authenticate_registers_on_success_only (authController (some exConnectSuccess, none))
      exWorldNew).1 exConnectSuccess rfl rfl,
    (authenticate_registers_on_success_only (authController (some exConnectFailure, none))
      exWorldNew).2.1 exConnectFailure rfl (by decide),
    (authenticate_registers_on_success_only (authController (none, some "rpc timeout"))
      exWorldNew).2.2.1 none "rpc timeout" rfl,
    (authenticate_registers_on_success_only (authController (none, none))
      exWorldNew).2.2.2 rfl⟩

/-- C13: when the reply of Authenticate has status FAILURE and no error,
`Node.Authenticate` returns the reply with a nil error, adds exactly one to
`failed_auths_total`, hands the broadcasts of the reply to the hub and the
transmissions to the session, and closes the session with the reason
"Auth Failed" and the normal-closure code as the last call, after them. -/
theorem authenticate_failure (ctl : Controller) (w : World) (res : ConnectResult)
    (hctl : ctl.Authenticate w.session.uid w.session.env = (some res, none))
    (hstatus : res.Status = Status.FAILURE) :
    ∃ out, Authenticate ctl w = some out ∧ out.2 = (some res, none) ∧
      out.1.metrics.Counter metricsFailedAuths = w.metrics.Counter metricsFailedAuths + 1 ∧
      out.1.hub.broadcasts = w.hub.broadcasts ++ res.Broadcasts.getD [] ∧
      out.1.session.outbound = w.session.outbound ++ res.Transmissions.getD [] ∧
      out.1.session.disconnects = w.session.disconnects ++ [("Auth Failed", CloseNormalClosure)] ∧
      out.1.trace = w.trace ++
        [.controllerAuthenticate w.session.uid, .counterIncrement metricsFailedAuths] ++
        connectEvents res ++ [.sessionDisconnect "Auth Failed" CloseNormalClosure] := by
  have hne : res.Status ≠ Status.SUCCESS := by rw [hstatus]; decide
  refine ⟨_, authenticate_of_no_success ctl w res hctl hne, rfl, ?_, ?_, ?_, ?_, ?_⟩
  · simp only [hstatus, if_true, World.Disconnect, handleCallReply_fst]
    rw [counter_foldl_counterIncrement_of_ne _ _ _ _ (by decide),
      counter_counterIncrement_self]
  · simp [hstatus, World.Disconnect, handleCallReply_fst, ConnectResult.ToCallResult]
  · simp [hstatus, World.Disconnect, handleCallReply_fst, ConnectResult.ToCallResult]
  · simp [hstatus, World.Disconnect, handleCallReply_fst]
  · simp [hstatus, World.Disconnect, handleCallReply_fst, ConnectResult.ToCallResult,
      connectEvents]

theorem authenticate_failure_witness :
    exConnectFailure.Status = Status.FAILURE ∧
    ∃ out, Authenticate (authController (some exConnectFailure, none)) exWorldNew = some out ∧
      out.2 = (some exConnectFailure, none) ∧
      out.1.metrics.Counter metricsFailedAuths =
        exWorldNew.metrics.Counter metricsFailedAuths + 1 ∧
      out.1.hub.broadcasts = exWorldNew.hub.broadcasts ++ exConnectFailure.Broadcasts.getD [] ∧
      out.1.session.outbound =
        exWorldNew.session.outbound ++ exConnectFailure.Transmissions.getD [] ∧
      out.1.session.disconnects =
        exWorldNew.session.disconnects ++ [("Auth Failed", CloseNormalClosure)] ∧
      out.1.trace = exWorldNew.trace ++
        [.controllerAuthenticate exWorldNew.session.uid,
          .counterIncrement metricsFailedAuths] ++
        connectEvents exConnectFailure ++ [.sessionDisconnect "Auth Failed" CloseNormalClosure] :=
  ⟨rfl, authenticate_failure (authController (some exConnectFailure, none)) exWorldNew
    exConnectFailure rfl rfl⟩

/-- C14: when the call of the controller returns an error, `Node.Authenticate`
returns that error (with the reply as the controller gave it) and the state
after it is the state before it with the close of the session, reason
"Auth Error" and internal-server-error close code, and with the two calls in
the trace: the counters (so `failed_auths_total`), the hub, the environment
and the outbound queue are unchanged, whatever the reply holds. -/
theorem authenticate_error (ctl : Controller) (w : World) (res : Option ConnectResult)
    (e : String) (hctl : ctl.Authenticate w.session.uid w.session.env = (res, some e)) :
    Authenticate ctl w =
      some ({ w with
        session := { w.session with
          disconnects := w.session.disconnects ++ [("Auth Error", CloseInternalServerErr)] },
        trace := w.trace ++ [.controllerAuthenticate w.session.uid,
          .sessionDisconnect "Auth Error" CloseInternalServerErr] }, res, some e) := by
  simp [Authenticate, hctl, World.Disconnect, World.record]

theorem authenticate_error_witness :
    Authenticate (authController (some exConnectFailure, some "rpc timeout")) exWorldNew =
      some ({ exWorldNew with
        session := { exWorldNew.session with disconnects := [("Auth Error", 1011)] },
        trace := [.controllerAuthenticate "s1", .sessionDisconnect "Auth Error" 1011] },
        some exConnectFailure, some "rpc timeout") :=
  authenticate_error (authController (some exConnectFailure, some "rpc timeout")) exWorldNew
    (some exConnectFailure) "rpc timeout" rfl

/-! ## Pub/sub payloads -/

/-- C15: for every raw payload `Node.HandlePubSub` adds exactly one to exactly
one of the two counters: to `failed_broadcast_msg_total` when the payload fails
to parse, and then the hub is unchanged; to `broadcast_msg_total` when it
parses as a stream message, which is handed to `hub.BroadcastMessage`, or as a
remote disconnect message, which is handed to `hub.RemoteDisconnect`.  The
session is unchanged in the three cases. -/
theorem handlePubSub_counts_once (parse : String → Except String PubSubMessage) (w : World)
    (raw : String) :
    (∀ e, parse raw = .error e →
      (HandlePubSub parse w raw).metrics.Counter metricsUnknownBroadcast =
        w.metrics.Counter metricsUnknownBroadcast + 1 ∧
      (HandlePubSub parse w raw).metrics.Counter metricsBroadcastMsg =
        w.metrics.Counter metricsBroadcastMsg ∧
      (HandlePubSub parse w raw).hub = w.hub ∧ (HandlePubSub parse w raw).session = w.session) ∧
    (∀ m, parse raw = .ok (.stream m) →
      (HandlePubSub parse w raw).metrics.Counter metricsBroadcastMsg =
        w.metrics.Counter metricsBroadcastMsg + 1 ∧
      (HandlePubSub parse w raw).metrics.Counter metricsUnknownBroadcast =
        w.metrics.Counter metricsUnknownBroadcast ∧
      (HandlePubSub parse w raw).hub = w.hub.BroadcastMessage m ∧
      (HandlePubSub parse w raw).session = w.session) ∧
    (∀ m, parse raw = .ok (.remoteDisconnect m) →
      (HandlePubSub parse w raw).metrics.Counter metricsBroadcastMsg =
        w.metrics.Counter metricsBroadcastMsg + 1 ∧
      (HandlePubSub parse w raw).metrics.Counter metricsUnknownBroadcast =
        w.metrics.Counter metricsUnknownBroadcast ∧
      (HandlePubSub parse w raw).hub = w.hub.RemoteDisconnect m ∧
      (HandlePubSub parse w raw).session = w.session) := by
  refine ⟨?_, ?_, ?_⟩
  · intro e he
    have hw : HandlePubSub parse w raw =
        { w with metrics := w.metrics.CounterIncrement metricsUnknownBroadcast,
                 trace := w.trace ++ [.counterIncrement metricsUnknownBroadcast,
                   .log .warn "Failed to parse pubsub message '%s' with error: %v"] } := by
      simp only [HandlePubSub, he]
    rw [hw]
    exact ⟨counter_counterIncrement_self _ _,
      counter_counterIncrement_of_ne _ _ _ (by decide), rfl, rfl⟩
  · intro m hm
    have hw : HandlePubSub parse w raw = Broadcast w m := by
      simp only [HandlePubSub, hm]
    rw [hw]
    exact ⟨counter_counterIncrement_self _ _,
      counter_counterIncrement_of_ne _ _ _ (by decide), rfl, rfl⟩
  · intro m hm
    have hw : HandlePubSub parse w raw = RemoteDisconnect w m := by
      simp only [HandlePubSub, hm]
    rw [hw]
    exact ⟨counter_counterIncrement_self _ _,
      counter_counterIncrement_of_ne _ _ _ (by decide), rfl, rfl⟩

theorem handlePubSub_counts_once_witness :
    exParse "garbage" = .error "Unknown message" ∧
    exParse "stream" = .ok (.stream { Stream := "room_1", Data := "hi" }) ∧
    exParse "disconnect" = .ok (.remoteDisconnect { Identifier := "user/42", Reconnect := true }) ∧
    (HandlePubSub exParse exWorld "garbage").metrics.Counter metricsUnknownBroadcast =
      exWorld.metrics.Counter metricsUnknownBroadcast + 1 ∧
    (HandlePubSub exParse exWorld "stream").metrics.Counter metricsBroadcastMsg =
      exWorld.metrics.Counter metricsBroadcastMsg + 1 ∧
    (HandlePubSub exParse exWorld "disconnect").hub =
      exWorld.hub.RemoteDisconnect { Identifier := "user/42", Reconnect := true } :=
  ⟨rfl, rfl, rfl,
    ((handlePubSub_counts_once exParse exWorld "garbage").1 "Unknown message" rfl).1,
    ((handlePubSub_counts_once exParse exWorld "stream").2.1
      { Stream := "room_1", Data := "hi" } rfl).1,
    ((handlePubSub_counts_once exParse exWorld "disconnect").2.2
      { Identifier := "user/42", Reconnect := true } rfl).2.2.1⟩

/-! ## Shutdown -/

theorem shutdownHub_trace (w : World) :
    (shutdownHub w).trace = w.trace ++ hubShutdownEvents w.hub := by
  have hsize : (w.hub.Shutdown).Size = w.hub.Size := rfl
  simp only [shutdownHub, hubShutdownEvents, hsize]
  split <;> simp [World.Log, World.record]

theorem shutdownStep_trace (w : World) (call : Event) (err : Option String) :
    (shutdownStep w call err).trace = w.trace ++ [call] ++ warnEvents err := by
  cases err <;> simp [shutdownStep, warnEvents, World.Log, World.record]

/-- C16: a call of `Node.Shutdown` on a node that is shut down returns the
error "Already shut down" and leaves the node as it is: no call of the hub, of
the disconnector or of the controller and no close of the shutdown channel is
added to the trace; every call of `Node.Shutdown` leaves the node shut down, so
this holds for every call after a first one. -/
theorem shutdown_already_shut_down (n : NodeState) :
    (n.closed = true → Shutdown n = (n, some "Already shut down")) ∧
    (Shutdown n).1.closed = true ∧
    ∀ k : Nat, Shutdown ((fun m => (Shutdown m).1)^[k] (Shutdown n).1) =
      ((Shutdown n).1, some "Already shut down") := by
  have hclosed : ∀ m : NodeState, m.closed = true → Shutdown m = (m, some "Already shut down") := by
    intro m hm
    simp [Shutdown, hm]
  have hafter : (Shutdown n).1.closed = true := by
    unfold Shutdown
    split
    · assumption
    · rfl
  refine ⟨hclosed n, hafter, ?_⟩
  intro k
  have hiter : (fun m => (Shutdown m).1)^[k] (Shutdown n).1 = (Shutdown n).1 := by
    induction k with
    | zero => rfl
    | succ k ih =>
      rw [Function.iterate_succ_apply', ih, hclosed _ hafter]
  rw [hiter]
  exact hclosed _ hafter

theorem shutdown_already_shut_down_witness :
    ({ exNode with closed := true } : NodeState).closed = true ∧
    (Shutdown { exNode with closed := true }).2 = some "Already shut down" ∧
    (Shutdown { exNode with closed := true }).1.world.trace = exNode.world.trace ∧
    (Shutdown (Shutdown (Shutdown exNode).1).1).2 = some "Already shut down" :=
  ⟨rfl,
    congrArg Prod.snd ((shutdown_already_shut_down { exNode with closed := true }).1 rfl),
    congrArg (fun r => r.1.world.trace)
      ((shutdown_already_shut_down { exNode with closed := true }).1 rfl),
    congrArg Prod.snd ((shutdown_already_shut_down exNode).2.2 1)⟩

/-- C17: on a call of `Node.Shutdown` on a node that is not shut down and has
its hub, disconnector and controller set, the calls are, in this order: the
close of the shutdown channel, the shutdown of the hub (followed by the
disconnect of the registered sessions, if any), the `Shutdown` of the
disconnector, the `Shutdown` of the controller; each error of the two is
logged and stops nothing, and the call returns nil whatever they return. -/
theorem shutdown_first_call (n : NodeState) (d : Disconnector) (c : Controller)
    (hclosed : n.closed = false) (hhub : n.hubSet = true)
    (hd : n.disconnector = some d) (hc : n.controller = some c) :
    (Shutdown n).2 = none ∧ (Shutdown n).1.closed = true ∧
    (Shutdown n).1.world.hub.stopped = true ∧
    (Shutdown n).1.world.trace =
      n.world.trace ++ [.closeShutdownCh] ++ hubShutdownEvents n.world.hub ++
        [.disconnectorShutdown] ++ warnEvents d.Shutdown ++
        [.controllerShutdown] ++ warnEvents c.Shutdown := by
  refine ⟨?_, ?_, ?_, ?_⟩
  · simp [Shutdown, hclosed]
  · simp [Shutdown, hclosed]
  · simp only [Shutdown, hclosed, hhub, hd, hc]
    cases d.Shutdown <;> cases c.Shutdown <;>
      by_cases h : 0 < n.world.hub.sessions.length <;>
      simp [shutdownStep, shutdownHub, World.Log, World.record, Hub.Shutdown, Hub.Size,
        Hub.DisconnectSesssions, h]
  · simp [Shutdown, hclosed, hhub, hd, hc, shutdownStep_trace, shutdownHub_trace, World.record]

theorem shutdown_first_call_witness :
    exNode.closed = false ∧ exNode.hubSet = true ∧
    exNode.disconnector = some { Shutdown := some "timeout" } ∧
    exNode.controller = some (shutdownController (some "rpc down")) ∧
    (Shutdown exNode).2 = none ∧ (Shutdown exNode).1.closed = true ∧
    (Shutdown exNode).1.world.hub.stopped = true ∧
    (Shutdown exNode).1.world.trace =
      exNode.world.trace ++ [.closeShutdownCh] ++ hubShutdownEvents exNode.world.hub ++
        [.disconnectorShutdown] ++ warnEvents (some "timeout") ++
        [.controllerShutdown] ++ warnEvents (some "rpc down") :=
  ⟨rfl, rfl, rfl, rfl,
    shutdown_first_call exNode { Shutdown := some "timeout" }
      (shutdownController (some "rpc down")) rfl rfl rfl rfl⟩

/-! ## The dispatch of commands -/

/-- C18: `Node.HandleCommand` logs the message and returns the error of
`Node.Subscribe`, `Node.Unsubscribe` or `Node.Perform` when the command is
"subscribe", "unsubscribe" or "message"; for every other command it returns
the error "Unknown command: " followed by the command, and the state after it
is the state before it with the log line in the trace: no call of the
controller, session and hub unchanged. -/
theorem handleCommand_dispatch (ctl : Controller) (w : World) (msg : Message) :
    (msg.Command = "subscribe" →
      HandleCommand ctl w msg =
        some ((Subscribe ctl (w.Log .debug "Incoming message: %v") msg).1,
          (Subscribe ctl (w.Log .debug "Incoming message: %v") msg).2.2)) ∧
    (msg.Command = "unsubscribe" →
      HandleCommand ctl w msg =
        (Unsubscribe ctl (w.Log .debug "Incoming message: %v") msg).map
          (fun out => (out.1, out.2.2))) ∧
    (msg.Command = "message" →
      HandleCommand ctl w msg =
        some ((Perform ctl (w.Log .debug "Incoming message: %v") msg).1,
          (Perform ctl (w.Log .debug "Incoming message: %v") msg).2.2)) ∧
    (msg.Command ≠ "subscribe" → msg.Command ≠ "unsubscribe" → msg.Command ≠ "message" →
      HandleCommand ctl w msg =
        some ({ w with trace := w.trace ++ [.log .debug "Incoming message: %v"] },
          some ("Unknown command: " ++ msg.Command))) := by
  refine ⟨?_, ?_, ?_, ?_⟩
  · intro h
    simp [HandleCommand, h]
  · intro h
    simp [HandleCommand, h]
  · intro h
    simp [HandleCommand, h]
  · intro h1 h2 h3
    simp [HandleCommand, h1, h2, h3, World.Log, World.record]

theorem handleCommand_dispatch_witness :
    exSubscribeChat.Command = "subscribe" ∧ exUnsubscribeChat.Command = "unsubscribe" ∧
    exPerformChat.Command = "message" ∧
    (exUnknownCommand.Command ≠ "subscribe" ∧ exUnknownCommand.Command ≠ "unsubscribe" ∧
      exUnknownCommand.Command ≠ "message") ∧
    HandleCommand (constController (some exReplyRoom, none)) exWorldChat exSubscribeChat =
      some ({ exWorldChat with trace := [.log .debug "Incoming message: %v"] },
        some "Already subscribed to chat") ∧
    HandleCommand (constController (some exReplyRoom, none)) exWorld exUnsubscribeChat =
      some ({ exWorld with trace := [.log .debug "Incoming message: %v"] },
        some "Unknown subscription chat") ∧
    HandleCommand (constController (some exReplyRoom, none)) exWorld exPerformChat =
      some ({ exWorld with trace := [.log .debug "Incoming message: %v"] },
        some "Unknown subscription chat") ∧
    HandleCommand (constController (some exReplyRoom, none)) exWorldChat exUnknownCommand =
      some ({ exWorldChat with trace := [.log .debug "Incoming message: %v"] },
        some "Unknown command: history") :=
  ⟨rfl, rfl, rfl, ⟨by decide, by decide, by decide⟩,
    (handleCommand_dispatch (constController (some exReplyRoom, none)) exWorldChat
      exSubscribeChat).1 rfl,
    (handleCommand_dispatch (constController (some exReplyRoom, none)) exWorld
      exUnsubscribeChat).2.1 rfl,
    (handleCommand_dispatch (constController (some exReplyRoom, none)) exWorld
      exPerformChat).2.2.1 rfl,
    (handleCommand_dispatch (constController (some exReplyRoom, none)) exWorldChat
      exUnknownCommand).2.2.2 (by decide) (by decide) (by decide)⟩

/-! ## The path flag -/

/-- C19: the code at the failing input.  The value `/cable,/ws` of the path
flag, two paths separated by a comma as the usage text of the flag describes,
gives a configuration with the one path `/cable,/ws`: the value is split at
spaces, not at commas. -/
theorem path_flag_with_commas_is_one_path :
    (NewConfigFromCLI (some "/cable,/ws")).Path = ["/cable,/ws"] ∧
    (NewConfigFromCLI (some "/cable,/ws")).Path ≠ ["/cable", "/ws"] ∧
    (NewConfigFromCLI (some "/cable /ws")).Path = ["/cable", "/ws"] ∧
    (NewConfigFromCLI none).Path = ["/cable"] := by
  decide

/-! ## The result of the reply handler -/

/-- C20: the code at the failing input.  The session holds the stream
`room_1` under the channel `chat`; a reply with `stop_all_streams` true and
nothing else removes the stream from the index and from the hub, and
`handleCommandReply` returns false. -/
theorem handleCommandReply_stop_all_streams_not_dirty :
    exReplyStopAll.StopAllStreams = true ∧
    exWorldRoom.session.subscriptions.StreamsFor "chat" = ["room_1"] ∧
    exWorldRoom.hub.streams = [("s1", "room_1", "chat")] ∧
    (handleCommandReply exWorldRoom exPerformChat exReplyStopAll).1.session.subscriptions.StreamsFor
      "chat" = [] ∧
    (handleCommandReply exWorldRoom exPerformChat exReplyStopAll).1.hub.streams = [] ∧
    (handleCommandReply exWorldRoom exPerformChat exReplyStopAll).2 = false := by
  decide

/-! ## Environment variable names -/

theorem intercalate_go_data (sep : String) (l : List String) (acc : String) :
    (String.intercalate.go acc sep l).data =
      acc.data ++ l.flatMap (fun a => sep.data ++ a.data) := by
  induction l generalizing acc with
  | nil => simp [String.intercalate.go]
  | cons a rest ih =>
    simp [String.intercalate.go, ih, String.data_append, List.append_assoc]

theorem stringsJoin_data (l : List String) (sep : String) :
    (stringsJoin l sep).data = joinChars sep.data (l.map String.data) := by
  cases l with
  | nil => rfl
  | cons a rest =>
    simp [stringsJoin, String.intercalate, intercalate_go_data, joinChars, List.flatMap_map]

theorem foldl_append_singleton {α β : Type} (f : α → β) (l : List α) (acc : List β) :
    l.foldl (fun acc a => acc ++ [f a]) acc = acc ++ l.map f := by
  induction l generalizing acc with
  | nil => simp
  | cons a rest ih => simp [ih]

theorem splitCharsWhere_ne_nil (p : Char → Bool) (l : List Char) : splitCharsWhere p l ≠ [] := by
  cases l with
  | nil => simp [splitCharsWhere]
  | cons c cs =>
    unfold splitCharsWhere
    split
    · simp
    · split <;> simp

/-- Splitting at the separators, mapping the pieces and joining them again is
mapping the characters that are not separators. -/
theorem joinChars_split (p : Char → Bool) (f : Char → Char) (sep : Char) (l : List Char) :
    joinChars [sep] ((splitCharsWhere p l).map (List.map f)) =
      l.map (fun c => if p c then sep else f c) := by
  induction l with
  | nil => rfl
  | cons c cs ih =>
    unfold splitCharsWhere
    by_cases hp : p c = true
    · simp only [hp, if_true, List.map_cons, List.map_nil]
      rw [← ih]
      cases hs : splitCharsWhere p cs with
      | nil => exact absurd hs (splitCharsWhere_ne_nil p cs)
      | cons q qs => simp [joinChars]
    · simp only [hp, List.map_cons]
      rw [← ih]
      cases hs : splitCharsWhere p cs with
      | nil => exact absurd hs (splitCharsWhere_ne_nil p cs)
      | cons q qs => simp [joinChars]

/-- The characters of the result of `nameToEnvVarName`. -/
theorem nameToEnvVarName_data (name : String) :
    (nameToEnvVarName name).data =
      envPrefix.data ++ name.data.map
        (fun c => if isFlagNameSeparator c then '_' else c.toUpper) := by
  simp only [nameToEnvVarName, splitFlagName, foldl_append_singleton, List.nil_append,
    String.data_append, stringsJoin_data, List.map_map]
  congr 1
  have hcomp : (String.data ∘ stringsToUpper ∘ String.mk) = List.map Char.toUpper := by
    funext l
    simp [stringsToUpper]
  rw [hcomp]
  exact joinChars_split isFlagNameSeparator Char.toUpper '_' name.toList

theorem isLower_iff_toNat (c : Char) : c.isLower = true ↔ 97 ≤ c.toNat ∧ c.toNat ≤ 122 := by
  simp only [Char.isLower, Char.toNat, Bool.and_eq_true, decide_eq_true_eq, ge_iff_le]
  rw [UInt32.le_def, UInt32.le_def, BitVec.le_def, BitVec.le_def]
  rfl

theorem utf8Size_of_toNat_le (c : Char) (h : c.toNat ≤ 127) : c.utf8Size = 1 := by
  have hle : c.val ≤ UInt32.ofNatCore 0x7F (by decide) := by
    rw [UInt32.le_def, BitVec.le_def]
    exact h
  simp only [Char.utf8Size, hle, if_true]

theorem ofNat_sub_upper (n : Nat) (h1 : 97 ≤ n) (h2 : n ≤ 122) :
    (Char.ofNat (n - 32)).isLower = false ∧ Char.ofNat (n - 32) ≠ '-' ∧
      (Char.ofNat (n - 32)).utf8Size = 1 := by
  interval_cases n <;> decide

theorem toUpper_isLower (c : Char) : c.toUpper.isLower = false := by
  unfold Char.toUpper
  by_cases h : c.toNat ≥ 97 ∧ c.toNat ≤ 122
  · simp only [h, and_self, if_true]
    exact (ofNat_sub_upper c.toNat h.1 h.2).1
  · simp only [h, if_false]
    cases hl : c.isLower
    · rfl
    · exact absurd ((isLower_iff_toNat c).mp hl) h

theorem toUpper_ne_dash (c : Char) (h : c ≠ '-') : c.toUpper ≠ '-' := by
  unfold Char.toUpper
  by_cases hr : c.toNat ≥ 97 ∧ c.toNat ≤ 122
  · simp only [hr, and_self, if_true]
    exact (ofNat_sub_upper c.toNat hr.1 hr.2).2.1
  · simp only [hr, if_false]
    exact h

theorem toUpper_utf8Size (c : Char) (h : c.toNat ≤ 127) : c.toUpper.utf8Size = 1 := by
  unfold Char.toUpper
  by_cases hr : c.toNat ≥ 97 ∧ c.toNat ≤ 122
  · simp only [hr, and_self, if_true]
    exact (ofNat_sub_upper c.toNat hr.1 hr.2).2.2
  · simp only [hr, if_false]
    exact utf8Size_of_toNat_le c h

theorem toNat_le_of_isFlagNameChar (c : Char) (h : isFlagNameChar c = true) : c.toNat ≤ 127 := by
  simp only [isFlagNameChar, Bool.or_eq_true, Bool.and_eq_true, decide_eq_true_eq,
    beq_iff_eq] at h
  rcases h with (((h | h) | h) | h) | h
  · omega
  · omega
  · omega
  · subst h; decide
  · subst h; decide

theorem utf8Len_eq_length (l : List Char) (h : ∀ c ∈ l, c.utf8Size = 1) :
    String.utf8Len l = l.length := by
  induction l with
  | nil => rfl
  | cons c cs ih =>
    rw [String.utf8Len_cons, List.length_cons, ih (fun d hd => h d (List.mem_cons_of_mem c hd)),
      h c (List.mem_cons_self c cs)]

theorem separator_or_upper_eq (c : Char) :
    (if isFlagNameSeparator c then '_' else c.toUpper) =
      (if c = '-' then '_' else c.toUpper) := by
  by_cases h1 : c = '-'
  · subst h1; rfl
  · by_cases h2 : c = '_'
    · subst h2; decide
    · simp [isFlagNameSeparator, h1, h2]

theorem goLen_eq_utf8Len (s : String) : goLen s = String.utf8Len s.data := by
  cases s
  rfl

/-- C21: for a flag name made of ASCII letters, digits, `-` and `_`,
`nameToEnvVarName` gives "ANYCABLE_" followed by the name with every letter
upper-cased and every `-` replaced by `_` (every `_` kept); the result has
9 + len(name) bytes, no `-` and no lower-case letter; "max-conn" gives
"ANYCABLE_MAX_CONN". -/
theorem nameToEnvVarName_upper_snake (name : String)
    (hname : ∀ c ∈ name.toList, isFlagNameChar c = true) :
    nameToEnvVarName name = envVarNameSpec name ∧
    goLen (nameToEnvVarName name) = 9 + goLen name ∧
    '-' ∉ (nameToEnvVarName name).toList ∧
    (∀ c ∈ (nameToEnvVarName name).toList, c.isLower = false) ∧
    nameToEnvVarName "max-conn" = "ANYCABLE_MAX_CONN" := by
  have hdata := nameToEnvVarName_data name
  refine ⟨?_, ?_, ?_, ?_, by decide⟩
  · apply String.ext
    rw [hdata]
    simp only [envVarNameSpec, String.data_append, String.toList]
    congr 1
    apply List.map_congr_left
    intro c _
    exact separator_or_upper_eq c
  · rw [goLen_eq_utf8Len, goLen_eq_utf8Len, hdata, String.utf8Len_append]
    have hpre : String.utf8Len envPrefix.data = 9 := by decide
    have hname1 : String.utf8Len name.data = name.data.length :=
      utf8Len_eq_length _ (fun c hc => utf8Size_of_toNat_le c
        (toNat_le_of_isFlagNameChar c (hname c hc)))
    have hmapped : String.utf8Len (name.data.map
        (fun c => if isFlagNameSeparator c then '_' else c.toUpper)) = name.data.length := by
      rw [utf8Len_eq_length, List.length_map]
      intro d hd
      obtain ⟨c, hc, rfl⟩ := List.mem_map.mp hd
      split
      · decide
      · exact toUpper_utf8Size c (toNat_le_of_isFlagNameChar c (hname c hc))
    rw [hpre, hname1, hmapped]
  · simp only [String.toList, hdata, List.mem_append, not_or]
    refine ⟨by decide, ?_⟩
    intro hd
    obtain ⟨c, _, hc⟩ := List.mem_map.mp hd
    by_cases hsep : isFlagNameSeparator c = true
    · rw [if_pos hsep] at hc
      exact absurd hc (by decide)
    · rw [if_neg hsep] at hc
      have hne : c ≠ '-' := by
        intro h
        subst h
        exact hsep (by decide)
      exact toUpper_ne_dash c hne hc
  · intro d hd
    simp only [String.toList, hdata, List.mem_append] at hd
    rcases hd with hd | hd
    · have hall : ∀ c ∈ envPrefix.data, c.isLower = false := by decide
      exact hall d hd
    · obtain ⟨c, _, rfl⟩ := List.mem_map.mp hd
      split
      · decide
      · exact toUpper_isLower c

theorem nameToEnvVarName_upper_snake_witness :
    (∀ c ∈ "max-conn".toList, isFlagNameChar c = true) ∧
    nameToEnvVarName "max-conn" = envVarNameSpec "max-conn" ∧
    goLen (nameToEnvVarName "max-conn") = 9 + goLen "max-conn" ∧
    '-' ∉ (nameToEnvVarName "max-conn").toList ∧
    (∀ c ∈ (nameToEnvVarName "max-conn").toList, c.isLower = false) ∧
    nameToEnvVarName "max-conn" = "ANYCABLE_MAX_CONN" :=
  ⟨by decide, nameToEnvVarName_upper_snake "max-conn" (by decide)⟩

/-! ## Defaults of the flags -/

/-- What `setDefaults` does to a flag. -/
theorem setDefaults_fields (category : String) (f : Flag) :
    (setDefaults category f).kind = f.kind ∧ (setDefaults category f).Name = f.Name ∧
    (setDefaults category f).Usage = f.Usage ∧ (setDefaults category f).Category = category ∧
    (f.EnvVars ≠ [] → (setDefaults category f).EnvVars = f.EnvVars) ∧
    (f.EnvVars = [] → (setDefaults category f).EnvVars = [nameToEnvVarName f.Name]) := by
  unfold setDefaults
  by_cases h : f.EnvVars = []
  · simp [h]
  · have hlen : ¬ f.EnvVars.length = 0 := by
      simpa [List.length_eq_zero] using h
    simp [h, hlen]

/-- C22, as stated, fails: a flag of a type `withDefaults` has no case for is
returned with its category not set and without an environment variable. -/
theorem withDefaults_skips_other_flag_types :
    withDefaults serverCategoryDescription [exSliceFlag] = [exSliceFlag] ∧
    exSliceFlag.Category ≠ serverCategoryDescription ∧ exSliceFlag.EnvVars = [] ∧
    (withDefaults serverCategoryDescription [exSliceFlag]).map Flag.Category = [""] ∧
    (withDefaults serverCategoryDescription [exSliceFlag]).map Flag.EnvVars = [[]] := by
  decide

/-- C22, amended: for every category and every list of flags, `withDefaults`
returns the same flags in the same order; each flag of one of the eight types
it has a case for (int, int64, float64, duration, bool, string, path,
timestamp) has its Category set to the given category, keeps a non-empty
EnvVars list unchanged and gets the one-element list of
`nameToEnvVarName` of its name for an empty one; a flag of another type is
returned unchanged. -/
theorem withDefaults_sets_category_and_env (category : String) (flags : List Flag) :
    (withDefaults category flags).length = flags.length ∧
    ∀ (i : Nat) (f : Flag), flags[i]? = some f →
      ∃ g, (withDefaults category flags)[i]? = some g ∧
        g.kind = f.kind ∧ g.Name = f.Name ∧ g.Usage = f.Usage ∧
        (f.kind ≠ FlagKind.otherFlag →
          g.Category = category ∧ (f.EnvVars ≠ [] → g.EnvVars = f.EnvVars) ∧
          (f.EnvVars = [] → g.EnvVars = [nameToEnvVarName f.Name])) ∧
        (f.kind = FlagKind.otherFlag → g = f) := by
  refine ⟨by simp [withDefaults], ?_⟩
  intro i f hf
  simp only [withDefaults, List.getElem?_map, hf, Option.map_some']
  refine ⟨_, rfl, ?_⟩
  rcases f with ⟨kind, name, usage, cat, env⟩
  have hs := setDefaults_fields category ⟨kind, name, usage, cat, env⟩
  cases kind <;>
    first
      | exact ⟨rfl, rfl, rfl, fun h => absurd rfl h, fun _ => rfl⟩
      | exact ⟨hs.1, hs.2.1, hs.2.2.1,
          fun _ => ⟨hs.2.2.2.1, hs.2.2.2.2.1, hs.2.2.2.2.2⟩, fun h => nomatch h⟩

theorem withDefaults_sets_category_and_env_witness :
    [exPortFlag, exMaxConnFlag, exSliceFlag][0]? = some exPortFlag ∧
    [exPortFlag, exMaxConnFlag, exSliceFlag][1]? = some exMaxConnFlag ∧
    withDefaults serverCategoryDescription [exPortFlag, exMaxConnFlag, exSliceFlag] =
      [{ exPortFlag with Category := "ANYCABLE-GO SERVER:",
                         EnvVars := ["ANYCABLE_PORT", "PORT"] },
       { exMaxConnFlag with Category := "ANYCABLE-GO SERVER:",
                            EnvVars := ["ANYCABLE_MAX_CONN"] },
       exSliceFlag] ∧
    (∃ g, (withDefaults serverCategoryDescription
        [exPortFlag, exMaxConnFlag, exSliceFlag])[0]? = some g ∧
      g.kind = exPortFlag.kind ∧ g.Name = exPortFlag.Name ∧ g.Usage = exPortFlag.Usage ∧
      (exPortFlag.kind ≠ FlagKind.otherFlag →
        g.Category = serverCategoryDescription ∧
        (exPortFlag.EnvVars ≠ [] → g.EnvVars = exPortFlag.EnvVars) ∧
        (exPortFlag.EnvVars = [] → g.EnvVars = [nameToEnvVarName exPortFlag.Name])) ∧
      (exPortFlag.kind = FlagKind.otherFlag → g = exPortFlag)) ∧
    (∃ g, (withDefaults serverCategoryDescription
        [exPortFlag, exMaxConnFlag, exSliceFlag])[1]? = some g ∧
      g.kind = exMaxConnFlag.kind ∧ g.Name = exMaxConnFlag.Name ∧
      g.Usage = exMaxConnFlag.Usage ∧
      (exMaxConnFlag.kind ≠ FlagKind.otherFlag →
        g.Category = serverCategoryDescription ∧
        (exMaxConnFlag.EnvVars ≠ [] → g.EnvVars = exMaxConnFlag.EnvVars) ∧
        (exMaxConnFlag.EnvVars = [] → g.EnvVars = [nameToEnvVarName exMaxConnFlag.Name])) ∧
      (exMaxConnFlag.kind = FlagKind.otherFlag → g = exMaxConnFlag)) :=
  ⟨rfl, rfl, by decide,
    (withDefaults_sets_category_and_env serverCategoryDescription
      [exPortFlag, exMaxConnFlag, exSliceFlag]).2 0 exPortFlag rfl,
    (withDefaults_sets_category_and_env serverCategoryDescription
      [exPortFlag, exMaxConnFlag, exSliceFlag]).2 1 exMaxConnFlag rfl⟩

end AnyCable
